import Mathlib

/-!
# Pipes: packed frames sent through a pair of anonymous pipes

A shallow embedding of the frame codec and the endpoint loops of `pipes.cpp`,
`pipex.cpp` and `pipey.cpp`.

Platform conventions used throughout (those of x86-64 Linux):
`int` and `enum` are 4 bytes, `short` 2 bytes, `float` 4 bytes, `double` 8 bytes,
`size_t` is 64 bits wide, memory is little-endian, signed integers are two's
complement and conversions between integer types wrap.  With `#pragma pack(2)`
the members of `whatA` sit at offsets 0, 4, 8, 12, 20 and those of `whatB` at
0, 4, 8, 10, 14.  Floating-point values are carried as bit patterns; floating-point
arithmetic is not interpreted and enters the model as a function on bit patterns.
-/

namespace Pipes

/-! ## Memory and machine integers -/

/-- Flat byte memory addressed relative to the first byte of the frame buffer
(`xBuff` in pipey.cpp, `buff` in pipex.cpp and pipes.cpp).  Offsets `0 .. 255` are the
array itself; every other offset is memory that does not belong to the array. -/
abbrev Mem := Int → Nat

/-- The frame buffer as a global is zero-initialised (`char xBuff[256] = {0}`). -/
def zeroMem : Mem := fun _ => 0

/-- Store the bytes `bs` at consecutive offsets starting at `off`. -/
def write (m : Mem) (off : Int) (bs : List Nat) : Mem :=
  fun i => if off ≤ i ∧ i < off + bs.length then bs.getD (i - off).toNat 0 else m i

/-- The `n` bytes found at offsets `off, off+1, ...`. -/
def readBytes (m : Mem) (off : Int) (n : Nat) : List Nat :=
  (List.range n).map (fun (k : Nat) => m (off + (k : Int)))

/-- `memset(buff, 0, sizeof(buff))` for the 256-byte array. -/
def memsetZero (m : Mem) : Mem :=
  fun i => if 0 ≤ i ∧ i < 256 then 0 else m i

/-- Little-endian encoding of `v` on `n` bytes (higher bits are dropped). -/
def encLE : Nat → Nat → List Nat
  | 0, _ => []
  | n + 1, v => v % 256 :: encLE n (v / 256)

/-- Little-endian value of a byte string. -/
def decLE : List Nat → Nat
  | [] => 0
  | b :: bs => b % 256 + 256 * decLE bs

/-- Value of a 32-bit pattern read as a signed `int`. -/
def toInt32 (u : Nat) : Int :=
  if u % 4294967296 < 2147483648 then ((u % 4294967296 : Nat) : Int)
  else ((u % 4294967296 : Nat) : Int) - 4294967296

/-- The 32-bit pattern of an integer (conversion to `int` wraps). -/
def wrap32 (x : Int) : Nat := (x % 4294967296).toNat

/-- Value of a 16-bit pattern read as a signed `short`. -/
def toInt16 (u : Nat) : Int :=
  if u % 65536 < 32768 then ((u % 65536 : Nat) : Int)
  else ((u % 65536 : Nat) : Int) - 65536

/-- The 16-bit pattern of an integer (conversion to `short` wraps). -/
def wrap16 (x : Int) : Nat := (x % 65536).toNat

/-- Conversion of a signed value to the 64-bit unsigned `size_t`. -/
def toSizeT (x : Int) : Nat := (x % 18446744073709551616).toNat

/-! ## Frame header (`whatBase`) -/

def typeNone : Nat := 0
def typeA : Nat := 10
def typeB : Nat := 11

/-- `sizeof(whatA)` under `#pragma pack(2)`: 8 + 4 + 8. -/
def sizeofWhatA : Int := 20

/-- `sizeof(whatB)` under `#pragma pack(2)`: 8 + 2 + 4. -/
def sizeofWhatB : Int := 14

/-- The member `int length` at offset 0. -/
def frameLength (m : Mem) : Int := toInt32 (decLE (readBytes m 0 4))

/-- The member `enum typeEnum type` at offset 4, as its raw 32-bit value. -/
def frameType (m : Mem) : Nat := decLE (readBytes m 4 4)

/-- Assignment to the member `length`. -/
def setLength (m : Mem) (v : Int) : Mem := write m 0 (encLE 4 (wrap32 v))

/-- Assignment to the member `type`. -/
def setType (m : Mem) (t : Nat) : Mem := write m 4 (encLE 4 t)

/-! ## Variant A (`whatA`): float, double, text -/

/-- Bit pattern of the member `float theFlt` (offset 8). -/
def theFlt (m : Mem) : Nat := decLE (readBytes m 8 4)

/-- Bit pattern of the member `double theDbl` (offset 12). -/
def theDbl (m : Mem) : Nat := decLE (readBytes m 12 8)

/-- Outcome of `populate`: the memory afterwards and, when the size check failed,
the value printed after "Bad string size: ". -/
structure PopResult where
  mem : Mem
  bad : Option Int

/-- `whatA::populate(float a, double b, const string &c)` of pipey.cpp and pipex.cpp;
`a` and `b` are the bit patterns of the two arguments. -/
def whatA_populate (a b : Nat) (c : List Nat) (m : Mem) : PopResult :=
  let cSize : Int := toInt32 c.length
  if cSize < 0 ∨ cSize > 250 then { mem := m, bad := some cSize }
  else
    let m1 := setLength m (sizeofWhatA + cSize)
    let m2 := setType m1 typeA
    let m3 := write m2 8 (encLE 4 a)
    let m4 := write m3 12 (encLE 8 b)
    let m5 := write m4 20 (c.take cSize.toNat)
    { mem := m5, bad := none }

/-- What `serialize` of variant A does with the frame it points at. -/
inductive SerA where
  /-- the length check failed: "Bad length: " is printed and nothing else -/
  | badLength (length : Int)
  /-- `string cStr(theStr, cSize)` with a negative `cSize`: the count converted to
  `size_t` exceeds `max_size()` and the constructor throws `std::length_error` -/
  | lengthError
  /-- the record that is printed, followed by the hex dump of `showHex` -/
  | record (length : Int) (type : Nat) (flt dbl : Nat) (str hex : List Nat)
  deriving DecidableEq

/-- `whatA::serialize(ostream &os)` of pipey.cpp and pipex.cpp. -/
def whatA_serialize (m : Mem) : SerA :=
  let length := frameLength m
  if length < 0 ∨ length > 256 then .badLength length
  else
    let cSize : Int := toInt32 (toSizeT (length - sizeofWhatA))
    if cSize < 0 then .lengthError
    else
      .record length (frameType m) (theFlt m) (theDbl m)
        (readBytes m 20 cSize.toNat) (readBytes m 0 length.toNat)

/-- `whatA::modify(double d)` of pipey.cpp; `fmul` is the effect of `theFlt *= d` and
`dmul` the effect of `theDbl *= (d*d)` on the stored bit patterns. -/
def whatA_modify (fmul dmul : Nat → Nat) (m : Mem) : Mem :=
  let m1 := write m 8 (encLE 4 (fmul (theFlt m)))
  let m2 := write m1 12 (encLE 8 (dmul (theDbl m1)))
  let m3 := write m2 (frameLength m2) [41, 62, 45]
  setLength m3 (frameLength m3 + 3)

/-! ## Variant B (`whatB`): short, int, text -/

/-- The member `short theShort` (offset 8). -/
def theShort (m : Mem) : Int := toInt16 (decLE (readBytes m 8 2))

/-- The member `int theInt` (offset 10). -/
def theInt (m : Mem) : Int := toInt32 (decLE (readBytes m 10 4))

/-- `whatB::populate(short a, int b, const string &c)` of pipey.cpp and pipex.cpp. -/
def whatB_populate (a b : Int) (c : List Nat) (m : Mem) : PopResult :=
  let cSize : Int := toInt32 c.length
  if cSize < 0 ∨ cSize > 250 then { mem := m, bad := some cSize }
  else
    let m1 := setLength m (sizeofWhatB + cSize)
    let m2 := setType m1 typeB
    let m3 := write m2 8 (encLE 2 (wrap16 a))
    let m4 := write m3 10 (encLE 4 (wrap32 b))
    let m5 := write m4 14 (c.take cSize.toNat)
    { mem := m5, bad := none }

/-- What `serialize` of variant B does with the frame it points at. -/
inductive SerB where
  | badLength (length : Int)
  | lengthError
  | record (length : Int) (type : Nat) (short int : Int) (str hex : List Nat)
  deriving DecidableEq

/-- `whatB::serialize(ostream &os)` of pipey.cpp and pipex.cpp. -/
def whatB_serialize (m : Mem) : SerB :=
  let length := frameLength m
  if length < 0 ∨ length > 256 then .badLength length
  else
    let cSize : Int := toInt32 (toSizeT (length - sizeofWhatB))
    if cSize < 0 then .lengthError
    else
      .record length (frameType m) (theShort m) (theInt m)
        (readBytes m 14 cSize.toNat) (readBytes m 0 length.toNat)

/-- `whatB::modify(int d)` of pipey.cpp: `theShort *= d; theInt *= (d*d);` then the
four bytes `-<(0` are copied to `buffer + length` and `length += 4`.  Signed
overflow is taken to wrap. -/
def whatB_modify (d : Int) (m : Mem) : Mem :=
  let m1 := write m 8 (encLE 2 (wrap16 (theShort m * d)))
  let m2 := write m1 10 (encLE 4 (wrap32 (theInt m1 * toInt32 (wrap32 (d * d)))))
  let m3 := write m2 (frameLength m2) [45, 60, 40, 48]
  setLength m3 (frameLength m3 + 4)

/-! ## Transport -/

/-- Result of one `fread`: the memory afterwards, what is left in the stream and the
number of bytes delivered (the value `fread` returns, the element size being 1). -/
structure ReadResult where
  mem : Mem
  file : List Nat
  count : Nat

/-- `fread(buffer + off, 1, n, file)` on the read end of a pipe.  `file` holds the bytes
the peer writes before it closes its end; the call blocks until `n` bytes have arrived
or the stream has ended, so it delivers the first `n` bytes or all that is left. -/
def fread (m : Mem) (off : Int) (n : Nat) (file : List Nat) : ReadResult :=
  { mem := write m off (file.take n), file := file.drop n, count := (file.take n).length }

/-- `fwrite(buffer, 1, n, file); fflush(file);` the stream is the list of bytes written
to it so far. -/
def fwrite (m : Mem) (n : Nat) (file : List Nat) : List Nat :=
  file ++ readBytes m 0 n

/-- Outcome of `whatBase::readIn`. -/
structure ReadIn where
  mem : Mem
  file : List Nat
  type : Nat

/-- `whatBase::readIn(FILE *file)` of pipey.cpp. -/
def readIn (m : Mem) (file : List Nat) : ReadIn :=
  let r1 := fread m 0 4 file
  if r1.count = 0 then { mem := r1.mem, file := r1.file, type := typeNone }
  else
    let r2 := fread r1.mem 4 (toSizeT (toInt32 (wrap32 (frameLength r1.mem - 4)))) r1.file
    if r2.count = 0 then { mem := r2.mem, file := r2.file, type := typeNone }
    else { mem := r2.mem, file := r2.file, type := frameType r2.mem }

/-- `whatBase::writeOut(FILE *file)` of pipey.cpp. -/
def writeOut (m : Mem) (file : List Nat) : List Nat :=
  fwrite m (toSizeT (frameLength m)) file

/-! ## Transformer side (`doChildStuff`) -/

/-- One process: its frame buffer, the bytes still to come on its read end and the
bytes it has written to its write end. -/
structure Proc where
  buff : Mem
  rFile : List Nat
  wFile : List Nat

/-- Outcome of one pass through the body of an endpoint loop: the loop goes round
again (`next`) or it is left and the streams are closed (`done`). -/
inductive Step where
  | next (p : Proc)
  | done (p : Proc)

/-- Body of the `do ... while (true)` loop of `doChildStuff` in pipey.cpp, which calls
`modify(2.0)` on a type A frame and `modify(3)` on a type B frame. -/
def pipey_childCycle (fmul dmul : Nat → Nat) (p : Proc) : Step :=
  let r := readIn p.buff p.rFile
  if r.type = typeA then
    let b := whatA_modify fmul dmul r.mem
    .next { buff := memsetZero b, rFile := r.file, wFile := writeOut b p.wFile }
  else if r.type = typeB then
    let b := whatB_modify 3 r.mem
    .next { buff := memsetZero b, rFile := r.file, wFile := writeOut b p.wFile }
  else if r.type = typeNone then
    .done { buff := r.mem, rFile := r.file, wFile := p.wFile }
  else
    .next { buff := memsetZero r.mem, rFile := r.file, wFile := writeOut r.mem p.wFile }

/-- The loop of `doChildStuff` in pipey.cpp, run for at most `fuel` passes; `none`
when it is still running after that many. -/
def pipey_doChildStuff (fmul dmul : Nat → Nat) : Nat → Proc → Option Proc
  | 0, _ => none
  | fuel + 1, p =>
    match pipey_childCycle fmul dmul p with
    | .done q => some q
    | .next q => pipey_doChildStuff fmul dmul fuel q

/-- The `case whatBase::typeA` block of `doChildStuff` in pipex.cpp; `fmul` is the
effect of `theFlt *= 2.0`, `dmul` that of `theDbl *= 32.0`. -/
def pipex_caseA (fmul dmul : Nat → Nat) (m : Mem) : Mem :=
  let m1 := write m 8 (encLE 4 (fmul (theFlt m)))
  let m2 := write m1 12 (encLE 8 (dmul (theDbl m1)))
  let m3 := write m2 (frameLength m2) [41, 62, 45]
  setLength m3 (frameLength m3 + 3)

/-- The `case whatBase::typeB` block of `doChildStuff` in pipex.cpp:
`theShort *= 2; theInt *= 32;` then `strncpy(buff + length, "-<(", 3)` and
`length += 3`.  Signed overflow is taken to wrap. -/
def pipex_caseB (m : Mem) : Mem :=
  let m1 := write m 8 (encLE 2 (wrap16 (theShort m * 2)))
  let m2 := write m1 10 (encLE 4 (wrap32 (theInt m1 * 32)))
  let m3 := write m2 (frameLength m2) [45, 60, 40]
  setLength m3 (frameLength m3 + 3)

/-- Body of the `do ... while (true)` loop of `doChildStuff` in pipex.cpp. -/
def pipex_childCycle (fmul dmul : Nat → Nat) (p : Proc) : Step :=
  let r1 := fread p.buff 0 4 p.rFile
  if r1.count = 0 then .done { buff := r1.mem, rFile := r1.file, wFile := p.wFile }
  else
    let r2 := fread r1.mem 4 (toSizeT (toInt32 (wrap32 (frameLength r1.mem - 4)))) r1.file
    if r2.count = 0 then .done { buff := r2.mem, rFile := r2.file, wFile := p.wFile }
    else
      let b :=
        if frameType r2.mem = typeA then pipex_caseA fmul dmul r2.mem
        else if frameType r2.mem = typeB then pipex_caseB r2.mem
        else r2.mem
      .next { buff := memsetZero b, rFile := r2.file,
              wFile := fwrite b (toSizeT (frameLength b)) p.wFile }

/-- The loop of `doChildStuff` in pipex.cpp, run for at most `fuel` passes. -/
def pipex_doChildStuff (fmul dmul : Nat → Nat) : Nat → Proc → Option Proc
  | 0, _ => none
  | fuel + 1, p =>
    match pipex_childCycle fmul dmul p with
    | .done q => some q
    | .next q => pipex_doChildStuff fmul dmul fuel q

/-- The statements of the loop body of `doChildStuff` in pipes.cpp that change the
struct: `one *= 2; two *= 2; strncpy(buff + len, "]=+", 3); len += 3`.  The struct
`what` is not packed: `len` at offset 0, `one` at 4, `two` at 8, `three` at 16.  `fmul`
and `dmul` are the effects of `one *= 2` and `two *= 2` on the bit patterns. -/
def pipes_modify (fmul dmul : Nat → Nat) (m : Mem) : Mem :=
  let m1 := write m 4 (encLE 4 (fmul (decLE (readBytes m 4 4))))
  let m2 := write m1 8 (encLE 8 (dmul (decLE (readBytes m1 8 8))))
  let m3 := write m2 (frameLength m2) [93, 61, 43]
  setLength m3 (frameLength m3 + 3)

/-- Body of the `do ... while (true)` loop of `doChildStuff` in pipes.cpp: two reads
whose results are not looked at, the changes to the struct, the write, the `memset`. -/
def pipes_childCycle (fmul dmul : Nat → Nat) (p : Proc) : Step :=
  let r1 := fread p.buff 0 4 p.rFile
  let r2 := fread r1.mem 4 (toSizeT (toInt32 (wrap32 (frameLength r1.mem - 4)))) r1.file
  let b := pipes_modify fmul dmul r2.mem
  .next { buff := memsetZero b, rFile := r2.file,
          wFile := fwrite b (toSizeT (frameLength b)) p.wFile }

/-- The loop of `doChildStuff` in pipes.cpp, run for at most `fuel` passes. -/
def pipes_doChildStuff (fmul dmul : Nat → Nat) : Nat → Proc → Option Proc
  | 0, _ => none
  | fuel + 1, p =>
    match pipes_childCycle fmul dmul p with
    | .done q => some q
    | .next q => pipes_doChildStuff fmul dmul fuel q

/-- The frame a step went through or stopped at. -/
def Step.proc : Step → Proc
  | .next p => p
  | .done p => p

/-- Whether the loop was left. -/
def Step.isDone : Step → Bool
  | .next _ => false
  | .done _ => true

/-! ## Specification predicates -/

/-- Marker append as the specification words it: `m'` is the frame `m` of declared
length `L` with `marker` appended.  The length field has grown by the marker size, the
marker bytes sit at offsets `L ..`, the type tag is the same, the text bytes (from the end
of the fixed fields at `fixedEnd` up to `L - 1`) are the same, and a byte before offset
`L` that differs belongs to the length field or to the fixed fields. -/
def MarkerAppended (m m' : Mem) (L : Int) (marker : List Nat) (fixedEnd : Int) : Prop :=
  frameLength m' = L + (marker.length : Int)
    ∧ readBytes m' L marker.length = marker
    ∧ frameType m' = frameType m
    ∧ (∀ i : Int, 4 ≤ i → i < 8 → m' i = m i)
    ∧ (∀ i : Int, fixedEnd ≤ i → i < L → m' i = m i)
    ∧ (∀ i : Int, 0 ≤ i → i < L → m' i ≠ m i → i < 4 ∨ (8 ≤ i ∧ i < fixedEnd))

/-! ## Producer side (`doParentStuff`) -/

/-- Whether `whatA::serialize` ended in the uncaught `std::length_error`. -/
def SerA.threw : SerA → Bool
  | .lengthError => true
  | _ => false

/-- Whether `whatB::serialize` ended in the uncaught `std::length_error`. -/
def SerB.threw : SerB → Bool
  | .lengthError => true
  | _ => false

/-- Outcome of one pass through the body of the producer loop: the loop goes round
again, it is left by `break`, or the process is ended by an uncaught exception. -/
inductive ParentStep where
  | next (p : Proc)
  | done (p : Proc)
  | aborted (p : Proc)

/-- The state a producer step ended in. -/
def ParentStep.proc : ParentStep → Proc
  | .next p => p
  | .done p => p
  | .aborted p => p

/-- Whether the producer goes on after the step. -/
def ParentStep.isNext : ParentStep → Bool
  | .next _ => true
  | _ => false

/-- First send of the loop body of `doParentStuff` in pipey.cpp: populate a type A frame
from the line, `writeOut`, `serialize`, `memset`.  `a` and `b` are the bit patterns of
the constants `1.234e5` and `2.345e67`.  What `serialize` prints is not kept. -/
def pipey_sendA (a b : Nat) (line : List Nat) (p : Proc) : ParentStep :=
  let mA := (whatA_populate a b line p.buff).mem
  let w1 := writeOut mA p.wFile
  if (whatA_serialize mA).threw then .aborted { buff := mA, rFile := p.rFile, wFile := w1 }
  else .next { buff := memsetZero mA, rFile := p.rFile, wFile := w1 }

/-- Second send of the loop body of `doParentStuff` in pipey.cpp: populate a type B
frame from the line into the buffer as the first send left it, `writeOut`,
`serialize`, `memset`. -/
def pipey_sendB (line : List Nat) (p : Proc) : ParentStep :=
  let mB := (whatB_populate 4660 1193046 line p.buff).mem
  let w2 := writeOut mB p.wFile
  if (whatB_serialize mB).threw then .aborted { buff := mB, rFile := p.rFile, wFile := w2 }
  else .next { buff := memsetZero mB, rFile := p.rFile, wFile := w2 }

/-- The sending half of the loop body of `doParentStuff` in pipey.cpp: the first send,
then the second send on the state the first one left. -/
def pipey_parentSend (a b : Nat) (line : List Nat) (p : Proc) : ParentStep :=
  match pipey_sendA a b line p with
  | .next q => pipey_sendB line q
  | .done q => .done q
  | .aborted q => .aborted q

/-- One turn of the `for` loop of `doParentStuff` in pipey.cpp that reads a packet back
and reports it according to its type. -/
def pipey_readBack (p : Proc) : ParentStep :=
  let r := readIn p.buff p.rFile
  if r.type = typeA then
    if (whatA_serialize r.mem).threw then
      .aborted { buff := r.mem, rFile := r.file, wFile := p.wFile }
    else .next { buff := r.mem, rFile := r.file, wFile := p.wFile }
  else if r.type = typeB then
    if (whatB_serialize r.mem).threw then
      .aborted { buff := r.mem, rFile := r.file, wFile := p.wFile }
    else .next { buff := r.mem, rFile := r.file, wFile := p.wFile }
  else .next { buff := r.mem, rFile := r.file, wFile := p.wFile }

/-- The receiving half of the loop body of `doParentStuff` in pipey.cpp: two packets are
read back, one after the other, into the same buffer. -/
def pipey_parentReceive (p : Proc) : ParentStep :=
  match pipey_readBack p with
  | .next q => pipey_readBack q
  | .done q => .done q
  | .aborted q => .aborted q

/-- Body of the `do ... while (true)` loop of `doParentStuff` in pipey.cpp for one line
of input; an empty line leaves the loop. -/
def pipey_parentCycle (a b : Nat) (line : List Nat) (p : Proc) : ParentStep :=
  if line.length = 0 then .done p
  else
    match pipey_parentSend a b line p with
    | .next q => pipey_parentReceive q
    | .done q => .done q
    | .aborted q => .aborted q

/-- First send of the loop body of `doParentStuff` in pipex.cpp: populate a type A
frame, `fwrite(buff, 1, length, wFile)`, `serialize`, `memset`. -/
def pipex_sendA (a b : Nat) (line : List Nat) (p : Proc) : ParentStep :=
  let mA := (whatA_populate a b line p.buff).mem
  let w1 := fwrite mA (toSizeT (frameLength mA)) p.wFile
  if (whatA_serialize mA).threw then .aborted { buff := mA, rFile := p.rFile, wFile := w1 }
  else .next { buff := memsetZero mA, rFile := p.rFile, wFile := w1 }

/-- Second send of the loop body of `doParentStuff` in pipex.cpp: populate a type B
frame into the buffer as the first send left it, `fwrite`, `serialize`, `memset`. -/
def pipex_sendB (line : List Nat) (p : Proc) : ParentStep :=
  let mB := (whatB_populate 4660 1193046 line p.buff).mem
  let w2 := fwrite mB (toSizeT (frameLength mB)) p.wFile
  if (whatB_serialize mB).threw then .aborted { buff := mB, rFile := p.rFile, wFile := w2 }
  else .next { buff := memsetZero mB, rFile := p.rFile, wFile := w2 }

/-- The sending half of the loop body of `doParentStuff` in pipex.cpp: the first send,
then the second send on the state the first one left. -/
def pipex_parentSend (a b : Nat) (line : List Nat) (p : Proc) : ParentStep :=
  match pipex_sendA a b line p with
  | .next q => pipex_sendB line q
  | .done q => .done q
  | .aborted q => .aborted q

/-- The receiving half of the loop body of `doParentStuff` in pipex.cpp: two reads and
`myWhatA->serialize`, then two reads and `myWhatB->serialize`; the results of the reads
are not looked at. -/
def pipex_parentReceive (p : Proc) : ParentStep :=
  let r1 := fread p.buff 0 4 p.rFile
  let r2 := fread r1.mem 4 (toSizeT (toInt32 (wrap32 (frameLength r1.mem - 4)))) r1.file
  if (whatA_serialize r2.mem).threw then
    .aborted { buff := r2.mem, rFile := r2.file, wFile := p.wFile }
  else
    let r3 := fread r2.mem 0 4 r2.file
    let r4 := fread r3.mem 4 (toSizeT (toInt32 (wrap32 (frameLength r3.mem - 4)))) r3.file
    if (whatB_serialize r4.mem).threw then
      .aborted { buff := r4.mem, rFile := r4.file, wFile := p.wFile }
    else .next { buff := r4.mem, rFile := r4.file, wFile := p.wFile }

/-- Body of the `do ... while (true)` loop of `doParentStuff` in pipex.cpp for one line
of input; an empty line leaves the loop. -/
def pipex_parentCycle (a b : Nat) (line : List Nat) (p : Proc) : ParentStep :=
  if line.length = 0 then .done p
  else
    match pipex_parentSend a b line p with
    | .next q => pipex_parentReceive q
    | .done q => .done q
    | .aborted q => .aborted q

/-! ## Records and the frames sent for them -/

/-- A record handed to `populate`: either variant, with its fixed fields and its text. -/
inductive Record where
  | varA (a b : Nat) (c : List Nat)
  | varB (s i : Int) (c : List Nat)

/-- The `populate` of the variant of the record. -/
def Record.populate (r : Record) (m : Mem) : PopResult :=
  match r with
  | .varA a b c => whatA_populate a b c m
  | .varB s i c => whatB_populate s i c m

/-- The type tag of the variant. -/
def Record.tag : Record → Nat
  | .varA _ _ _ => typeA
  | .varB _ _ _ => typeB

/-- Size of the struct of the variant plus the size of the text. -/
def Record.size : Record → Nat
  | .varA _ _ c => 20 + c.length
  | .varB _ _ c => 14 + c.length

/-- The fixed fields and the text of the record as they lie in the frame after the
8-byte header. -/
def Record.body : Record → List Nat
  | .varA a b c => encLE 4 a ++ encLE 8 b ++ c
  | .varB s i c => encLE 2 (wrap16 s) ++ encLE 4 (wrap32 i) ++ c

/-- The bytes that go on the stream for a record: `populate` into the buffer `m`, then
`writeOut` to a stream that is empty so far. -/
def sentFrame (r : Record) (m : Mem) : List Nat :=
  writeOut (r.populate m).mem []

/-- All 256 bytes of the frame buffer are zero. -/
def BufferZero (m : Mem) : Prop :=
  ∀ i : Int, 0 ≤ i → i < 256 → m i = 0

/-- Bit pattern of the `float` constant `1.234e5`. -/
def demoFlt : Nat := 0x47F10400

/-- Bit pattern of the `double` constant `2.345e67`. -/
def demoDbl : Nat := 0x4DEBD5795A736114

/-- The two packets the pipey transformer sends back for the line "x": the type A frame
with both numbers rescaled and `)>-` appended, then the type B frame with `-<(0`. -/
def demoRepliesPipey : List Nat :=
  [24, 0, 0, 0, 10, 0, 0, 0, 0, 4, 113, 72, 20, 97, 115, 90, 121, 213, 11, 78, 120, 41, 62, 45,
   19, 0, 0, 0, 11, 0, 0, 0, 156, 54, 6, 215, 163, 0, 120, 45, 60, 40, 48]

/-- The two packets the pipex transformer sends back for the line "x". -/
def demoRepliesPipex : List Nat :=
  [24, 0, 0, 0, 10, 0, 0, 0, 0, 4, 113, 72, 20, 97, 115, 90, 121, 213, 59, 78, 120, 41, 62, 45,
   18, 0, 0, 0, 11, 0, 0, 0, 104, 36, 192, 138, 70, 2, 120, 45, 60, 40]

/-! ## Demonstration records -/

/-- The type B frame the producer builds for the one-letter text "x":
`populate(0x1234, 0x123456, "x")` into the zeroed buffer. -/
def exampleFrameB : Mem := (whatB_populate 4660 1193046 [120] zeroMem).mem

/-! ## Basic facts about memory and encodings -/

theorem write_apply (m : Mem) (off : Int) (bs : List Nat) (i : Int) :
    write m off bs i = if off ≤ i ∧ i < off + bs.length then bs.getD (i - off).toNat 0 else m i := rfl

theorem write_apply_out (m : Mem) (off : Int) (bs : List Nat) (i : Int)
    (h : i < off ∨ off + bs.length ≤ i) : write m off bs i = m i := by
  rw [write_apply, if_neg]; omega

theorem write_apply_in (m : Mem) (off : Int) (bs : List Nat) (k : Nat) (h : k < bs.length) :
    write m off bs (off + k) = bs[k] := by
  rw [write_apply, if_pos (by omega)]
  have : (off + (k : Int) - off).toNat = k := by omega
  rw [this, List.getD_eq_getElem _ _ h]

theorem length_readBytes (m : Mem) (off : Int) (n : Nat) : (readBytes m off n).length = n := by
  simp [readBytes]

theorem getElem_readBytes (m : Mem) (off : Int) (n k : Nat) (h : k < (readBytes m off n).length) :
    (readBytes m off n)[k] = m (off + k) := by
  simp [readBytes]

theorem readBytes_congr (m m' : Mem) (off : Int) (n : Nat)
    (h : ∀ k : Nat, k < n → m' (off + k) = m (off + k)) :
    readBytes m' off n = readBytes m off n := by
  apply List.ext_getElem
  · simp [length_readBytes]
  · intro k h1 h2
    rw [getElem_readBytes, getElem_readBytes]
    exact h k (by simpa [length_readBytes] using h1)

theorem readBytes_write_out (m : Mem) (off off' : Int) (bs : List Nat) (n : Nat)
    (h : off' + n ≤ off ∨ off + bs.length ≤ off') :
    readBytes (write m off bs) off' n = readBytes m off' n := by
  apply readBytes_congr
  intro k hk
  apply write_apply_out
  omega

theorem readBytes_write_same (m : Mem) (off : Int) (bs : List Nat) :
    readBytes (write m off bs) off bs.length = bs := by
  apply List.ext_getElem
  · simp [length_readBytes]
  · intro k h1 h2
    rw [getElem_readBytes, write_apply_in _ _ _ _ h2]

theorem length_encLE (n v : Nat) : (encLE n v).length = n := by
  induction n generalizing v with
  | zero => rfl
  | succ n ih => simp [encLE, ih]

theorem decLE_encLE (n v : Nat) : decLE (encLE n v) = v % 256 ^ n := by
  induction n generalizing v with
  | zero => simp [encLE, decLE, Nat.mod_one]
  | succ n ih =>
    simp only [encLE, decLE, ih, Nat.mod_mod]
    rw [pow_succ, mul_comm (256 ^ n) 256, Nat.mod_mul]

theorem toInt32_wrap32 (x : Int) (h1 : -2147483648 ≤ x) (h2 : x < 2147483648) :
    toInt32 (wrap32 x) = x := by
  unfold toInt32 wrap32
  split <;> omega

theorem toInt16_wrap16 (x : Int) (h1 : -32768 ≤ x) (h2 : x < 32768) :
    toInt16 (wrap16 x) = x := by
  unfold toInt16 wrap16
  split <;> omega

theorem toInt32_of_lt (n : Nat) (h : n < 2147483648) : toInt32 n = (n : Int) := by
  unfold toInt32
  have h1 : n % 4294967296 = n := Nat.mod_eq_of_lt (by omega)
  rw [h1, if_pos h]

theorem frameLength_write_out (m : Mem) (off : Int) (bs : List Nat)
    (h : 4 ≤ off ∨ off + bs.length ≤ 0) : frameLength (write m off bs) = frameLength m := by
  unfold frameLength
  rw [readBytes_write_out]
  omega

theorem frameType_write_out (m : Mem) (off : Int) (bs : List Nat)
    (h : 8 ≤ off ∨ off + bs.length ≤ 4) : frameType (write m off bs) = frameType m := by
  unfold frameType
  rw [readBytes_write_out]
  omega

theorem frameLength_setLength (m : Mem) (v : Int) :
    frameLength (setLength m v) = toInt32 (wrap32 v) := by
  unfold frameLength setLength
  have h := readBytes_write_same m 0 (encLE 4 (wrap32 v))
  rw [length_encLE] at h
  rw [h, decLE_encLE]
  unfold toInt32
  simp

theorem frameType_setLength (m : Mem) (v : Int) : frameType (setLength m v) = frameType m := by
  unfold setLength
  apply frameType_write_out
  simp [length_encLE]

theorem frameType_setType (m : Mem) (t : Nat) (h : t < 4294967296) :
    frameType (setType m t) = t := by
  unfold frameType setType
  have h1 := readBytes_write_same m 4 (encLE 4 t)
  rw [length_encLE] at h1
  rw [h1, decLE_encLE]
  exact Nat.mod_eq_of_lt (by simpa using h)

theorem frameLength_setType (m : Mem) (t : Nat) : frameLength (setType m t) = frameLength m := by
  unfold setType
  apply frameLength_write_out
  simp

theorem whatA_populate_mem (a b : Nat) (c : List Nat) (m : Mem) (h : c.length ≤ 250) :
    (whatA_populate a b c m).mem =
      write (write (write (setType (setLength m (20 + (c.length : Int))) typeA) 8 (encLE 4 a))
        12 (encLE 8 b)) 20 c := by
  have h1 : toInt32 c.length = (c.length : Int) := toInt32_of_lt _ (by omega)
  unfold whatA_populate
  simp only [h1, sizeofWhatA]
  rw [if_neg (by omega)]
  simp

theorem whatB_populate_mem (a b : Int) (c : List Nat) (m : Mem) (h : c.length ≤ 250) :
    (whatB_populate a b c m).mem =
      write (write (write (setType (setLength m (14 + (c.length : Int))) typeB) 8
        (encLE 2 (wrap16 a))) 10 (encLE 4 (wrap32 b))) 14 c := by
  have h1 : toInt32 c.length = (c.length : Int) := toInt32_of_lt _ (by omega)
  unfold whatB_populate
  simp only [h1, sizeofWhatB]
  rw [if_neg (by omega)]
  simp

theorem whatA_populate_length (a b : Nat) (c : List Nat) (m : Mem) (h : c.length ≤ 250) :
    frameLength (whatA_populate a b c m).mem = 20 + (c.length : Int) := by
  rw [whatA_populate_mem a b c m h, frameLength_write_out _ _ _ (by omega),
    frameLength_write_out _ _ _ (by omega), frameLength_write_out _ _ _ (by omega),
    frameLength_setType, frameLength_setLength]
  exact toInt32_wrap32 _ (by omega) (by omega)

theorem whatA_populate_type (a b : Nat) (c : List Nat) (m : Mem) (h : c.length ≤ 250) :
    frameType (whatA_populate a b c m).mem = 10 := by
  rw [whatA_populate_mem a b c m h, frameType_write_out _ _ _ (by omega),
    frameType_write_out _ _ _ (by omega), frameType_write_out _ _ _ (by omega),
    frameType_setType _ _ (by decide)]
  rfl

theorem whatB_populate_length (a b : Int) (c : List Nat) (m : Mem) (h : c.length ≤ 250) :
    frameLength (whatB_populate a b c m).mem = 14 + (c.length : Int) := by
  rw [whatB_populate_mem a b c m h, frameLength_write_out _ _ _ (by omega),
    frameLength_write_out _ _ _ (by omega), frameLength_write_out _ _ _ (by omega),
    frameLength_setType, frameLength_setLength]
  exact toInt32_wrap32 _ (by omega) (by omega)

theorem whatB_populate_type (a b : Int) (c : List Nat) (m : Mem) (h : c.length ≤ 250) :
    frameType (whatB_populate a b c m).mem = 11 := by
  rw [whatB_populate_mem a b c m h, frameType_write_out _ _ _ (by omega),
    frameType_write_out _ _ _ (by omega), frameType_write_out _ _ _ (by omega),
    frameType_setType _ _ (by decide)]
  rfl

theorem write_append (m : Mem) (off : Int) (xs ys : List Nat) :
    write (write m off xs) (off + xs.length) ys = write m off (xs ++ ys) := by
  funext i
  simp only [write_apply, List.length_append, Nat.cast_add]
  by_cases h1 : off + xs.length ≤ i ∧ i < off + xs.length + ys.length
  · rw [if_pos h1, if_pos (by omega)]
    have h3 : (i - off).toNat = xs.length + (i - (off + xs.length)).toNat := by omega
    rw [h3, List.getD_eq_getElem?_getD, List.getD_eq_getElem?_getD,
      List.getElem?_append_right (by omega)]
    simp
  · rw [if_neg h1]
    by_cases h2 : off ≤ i ∧ i < off + xs.length
    · rw [if_pos h2, if_pos (by omega)]
      rw [List.getD_eq_getElem?_getD, List.getD_eq_getElem?_getD,
        List.getElem?_append_left (by omega)]
    · rw [if_neg h2, if_neg (by omega)]

theorem readBytes_write_head (m : Mem) (off : Int) (xs ys : List Nat) :
    readBytes (write m off (xs ++ ys)) off xs.length = xs := by
  rw [← write_append, readBytes_write_out _ _ _ _ _ (by omega), readBytes_write_same]

theorem whatA_populate_image (a b : Nat) (c : List Nat) (m : Mem) (h : c.length ≤ 250) :
    (whatA_populate a b c m).mem =
      write m 0 (encLE 4 (20 + c.length) ++ encLE 4 10 ++ encLE 4 a ++ encLE 8 b ++ c) := by
  rw [whatA_populate_mem a b c m h]
  unfold setType setLength typeA
  have hw : wrap32 (20 + (c.length : Int)) = 20 + c.length := by unfold wrap32; omega
  rw [hw]
  have e1 := write_append m 0 (encLE 4 (20 + c.length)) (encLE 4 10)
  simp only [length_encLE] at e1
  have e2 := write_append m 0 (encLE 4 (20 + c.length) ++ encLE 4 10) (encLE 4 a)
  simp only [length_encLE, List.length_append] at e2
  have e3 := write_append m 0 (encLE 4 (20 + c.length) ++ encLE 4 10 ++ encLE 4 a) (encLE 8 b)
  simp only [length_encLE, List.length_append] at e3
  have e4 := write_append m 0
    (encLE 4 (20 + c.length) ++ encLE 4 10 ++ encLE 4 a ++ encLE 8 b) c
  simp only [length_encLE, List.length_append] at e4
  norm_num at e1 e2 e3 e4
  rw [e1, e2, e3, e4]
  simp only [List.append_assoc]

theorem whatB_populate_image (a b : Int) (c : List Nat) (m : Mem) (h : c.length ≤ 250) :
    (whatB_populate a b c m).mem =
      write m 0 (encLE 4 (14 + c.length) ++ encLE 4 11 ++ encLE 2 (wrap16 a)
        ++ encLE 4 (wrap32 b) ++ c) := by
  rw [whatB_populate_mem a b c m h]
  unfold setType setLength typeB
  have hw : wrap32 (14 + (c.length : Int)) = 14 + c.length := by unfold wrap32; omega
  rw [hw]
  have e1 := write_append m 0 (encLE 4 (14 + c.length)) (encLE 4 11)
  simp only [length_encLE] at e1
  have e2 := write_append m 0 (encLE 4 (14 + c.length) ++ encLE 4 11) (encLE 2 (wrap16 a))
  simp only [length_encLE, List.length_append] at e2
  have e3 := write_append m 0 (encLE 4 (14 + c.length) ++ encLE 4 11 ++ encLE 2 (wrap16 a))
    (encLE 4 (wrap32 b))
  simp only [length_encLE, List.length_append] at e3
  have e4 := write_append m 0
    (encLE 4 (14 + c.length) ++ encLE 4 11 ++ encLE 2 (wrap16 a) ++ encLE 4 (wrap32 b)) c
  simp only [length_encLE, List.length_append] at e4
  norm_num at e1 e2 e3 e4
  rw [e1, e2, e3, e4]
  simp only [List.append_assoc]

/-- Round trip of variant A for every text that fits the 256-byte buffer. -/
theorem whatA_roundtrip (a b : Nat) (c : List Nat) (m : Mem)
    (ha : a < 4294967296) (hb : b < 18446744073709551616) (hc : c.length ≤ 236) :
    whatA_serialize (whatA_populate a b c m).mem =
      .record (20 + (c.length : Int)) 10 a b c
        (encLE 4 (20 + c.length) ++ encLE 4 10 ++ encLE 4 a ++ encLE 8 b ++ c) := by
  have hlen := whatA_populate_length a b c m (by omega)
  have hty := whatA_populate_type a b c m (by omega)
  have himg := whatA_populate_image a b c m (by omega)
  have hmem := whatA_populate_mem a b c m (by omega)
  have hflt : theFlt (whatA_populate a b c m).mem = a := by
    unfold theFlt
    rw [hmem, readBytes_write_out _ _ _ _ _ (by omega),
      readBytes_write_out _ _ _ _ _ (by simp [length_encLE])]
    have h1 := readBytes_write_same (setType (setLength m (20 + (c.length : Int))) typeA) 8
      (encLE 4 a)
    rw [length_encLE] at h1
    rw [h1, decLE_encLE]
    exact Nat.mod_eq_of_lt (by simpa using ha)
  have hdbl : theDbl (whatA_populate a b c m).mem = b := by
    unfold theDbl
    rw [hmem, readBytes_write_out _ _ _ _ _ (by omega)]
    have h1 := readBytes_write_same
      (write (setType (setLength m (20 + (c.length : Int))) typeA) 8 (encLE 4 a)) 12 (encLE 8 b)
    rw [length_encLE] at h1
    rw [h1, decLE_encLE]
    exact Nat.mod_eq_of_lt (by simpa using hb)
  have hstr : readBytes (whatA_populate a b c m).mem 20 c.length = c := by
    rw [hmem, readBytes_write_same]
  have hhex : readBytes (whatA_populate a b c m).mem 0 (20 + c.length) =
      encLE 4 (20 + c.length) ++ encLE 4 10 ++ encLE 4 a ++ encLE 8 b ++ c := by
    rw [himg]
    have h1 := readBytes_write_same m 0
      (encLE 4 (20 + c.length) ++ encLE 4 10 ++ encLE 4 a ++ encLE 8 b ++ c)
    simp only [length_encLE, List.length_append] at h1
    norm_num at h1
    simpa using h1
  unfold whatA_serialize
  simp only [hlen, sizeofWhatA]
  rw [if_neg (by omega)]
  have hs : toInt32 (toSizeT (20 + (c.length : Int) - 20)) = (c.length : Int) := by
    have : toSizeT (20 + (c.length : Int) - 20) = c.length := by unfold toSizeT; omega
    rw [this]
    exact toInt32_of_lt _ (by omega)
  simp only [hs]
  rw [if_neg (by omega)]
  have h20 : (20 + (c.length : Int)).toNat = 20 + c.length := by omega
  simp only [Int.toNat_ofNat, h20, hty, hflt, hdbl, hstr, hhex]

/-- Round trip of variant B for every text that fits the 256-byte buffer. -/
theorem whatB_roundtrip (a b : Int) (c : List Nat) (m : Mem)
    (ha1 : -32768 ≤ a) (ha2 : a < 32768) (hb1 : -2147483648 ≤ b) (hb2 : b < 2147483648)
    (hc : c.length ≤ 242) :
    whatB_serialize (whatB_populate a b c m).mem =
      .record (14 + (c.length : Int)) 11 a b c
        (encLE 4 (14 + c.length) ++ encLE 4 11 ++ encLE 2 (wrap16 a)
          ++ encLE 4 (wrap32 b) ++ c) := by
  have hlen := whatB_populate_length a b c m (by omega)
  have hty := whatB_populate_type a b c m (by omega)
  have himg := whatB_populate_image a b c m (by omega)
  have hmem := whatB_populate_mem a b c m (by omega)
  have hsh : theShort (whatB_populate a b c m).mem = a := by
    unfold theShort
    rw [hmem, readBytes_write_out _ _ _ _ _ (by omega),
      readBytes_write_out _ _ _ _ _ (by simp [length_encLE])]
    have h1 := readBytes_write_same (setType (setLength m (14 + (c.length : Int))) typeB) 8
      (encLE 2 (wrap16 a))
    rw [length_encLE] at h1
    rw [h1, decLE_encLE]
    unfold toInt16 wrap16
    norm_num
    split <;> omega
  have hin : theInt (whatB_populate a b c m).mem = b := by
    unfold theInt
    rw [hmem, readBytes_write_out _ _ _ _ _ (by omega)]
    have h1 := readBytes_write_same
      (write (setType (setLength m (14 + (c.length : Int))) typeB) 8 (encLE 2 (wrap16 a))) 10
      (encLE 4 (wrap32 b))
    rw [length_encLE] at h1
    rw [h1, decLE_encLE]
    unfold toInt32 wrap32
    norm_num
    split <;> omega
  have hstr : readBytes (whatB_populate a b c m).mem 14 c.length = c := by
    rw [hmem, readBytes_write_same]
  have hhex : readBytes (whatB_populate a b c m).mem 0 (14 + c.length) =
      encLE 4 (14 + c.length) ++ encLE 4 11 ++ encLE 2 (wrap16 a)
        ++ encLE 4 (wrap32 b) ++ c := by
    rw [himg]
    have h1 := readBytes_write_same m 0
      (encLE 4 (14 + c.length) ++ encLE 4 11 ++ encLE 2 (wrap16 a) ++ encLE 4 (wrap32 b) ++ c)
    simp only [length_encLE, List.length_append] at h1
    norm_num at h1
    simpa using h1
  unfold whatB_serialize
  simp only [hlen, sizeofWhatB]
  rw [if_neg (by omega)]
  have hs : toInt32 (toSizeT (14 + (c.length : Int) - 14)) = (c.length : Int) := by
    have : toSizeT (14 + (c.length : Int) - 14) = c.length := by unfold toSizeT; omega
    rw [this]
    exact toInt32_of_lt _ (by omega)
  simp only [hs]
  rw [if_neg (by omega)]
  have h14 : (14 + (c.length : Int)).toNat = 14 + c.length := by omega
  simp only [Int.toNat_ofNat, h14, hty, hsh, hin, hstr, hhex]

/-- A text `populate` accepts but that does not fit the buffer is refused by
`serialize`: variant A. -/
theorem whatA_serialize_populate_long (a b : Nat) (c : List Nat) (m : Mem)
    (h1 : 236 < c.length) (h2 : c.length ≤ 250) :
    whatA_serialize (whatA_populate a b c m).mem = .badLength (20 + (c.length : Int)) := by
  unfold whatA_serialize
  simp only [whatA_populate_length a b c m h2]
  rw [if_pos (by omega)]

/-- A text `populate` accepts but that does not fit the buffer is refused by
`serialize`: variant B. -/
theorem whatB_serialize_populate_long (a b : Int) (c : List Nat) (m : Mem)
    (h1 : 242 < c.length) (h2 : c.length ≤ 250) :
    whatB_serialize (whatB_populate a b c m).mem = .badLength (14 + (c.length : Int)) := by
  unfold whatB_serialize
  simp only [whatB_populate_length a b c m h2]
  rw [if_pos (by omega)]

theorem whatA_populate_bad (a b : Nat) (c : List Nat) (m : Mem) (h : c.length ≤ 250) :
    (whatA_populate a b c m).bad = none := by
  have h1 : toInt32 c.length = (c.length : Int) := toInt32_of_lt _ (by omega)
  unfold whatA_populate
  simp only [h1]
  rw [if_neg (by omega)]

theorem whatB_populate_bad (a b : Int) (c : List Nat) (m : Mem) (h : c.length ≤ 250) :
    (whatB_populate a b c m).bad = none := by
  have h1 : toInt32 c.length = (c.length : Int) := toInt32_of_lt _ (by omega)
  unfold whatB_populate
  simp only [h1]
  rw [if_neg (by omega)]

/-- Rejection leaves the buffer untouched, for every size that survives the
conversion to `int`. -/
theorem whatA_populate_rejects (a b : Nat) (c : List Nat) (m : Mem)
    (h1 : 250 < c.length) (h2 : c.length < 2147483648) :
    (whatA_populate a b c m).mem = m ∧ (whatA_populate a b c m).bad = some (c.length : Int) := by
  have h3 : toInt32 c.length = (c.length : Int) := toInt32_of_lt _ h2
  unfold whatA_populate
  simp only [h3]
  rw [if_pos (by omega)]
  exact ⟨rfl, rfl⟩

theorem whatB_populate_rejects (a b : Int) (c : List Nat) (m : Mem)
    (h1 : 250 < c.length) (h2 : c.length < 2147483648) :
    (whatB_populate a b c m).mem = m ∧ (whatB_populate a b c m).bad = some (c.length : Int) := by
  have h3 : toInt32 c.length = (c.length : Int) := toInt32_of_lt _ h2
  unfold whatB_populate
  simp only [h3]
  rw [if_pos (by omega)]
  exact ⟨rfl, rfl⟩

theorem toInt32_two_pow_32_add (k : Nat) (h : k < 2147483648) :
    toInt32 (4294967296 + k) = (k : Int) := by
  unfold toInt32
  have h1 : (4294967296 + k) % 4294967296 = k := by omega
  rw [h1, if_pos h]

/-- A text of `2^32 + k` bytes, `k ≤ 250`, passes the size check of `populate`, which sees
only `k`; a frame holding the first `k` bytes is produced. -/
theorem whatA_populate_wraps (a b : Nat) (c : List Nat) (m : Mem) (k : Nat)
    (hk : k ≤ 250) (h : c.length = 4294967296 + k) :
    (whatA_populate a b c m).bad = none
      ∧ (whatA_populate a b c m).mem = (whatA_populate a b (c.take k) m).mem := by
  have h1 : toInt32 c.length = (k : Int) := by rw [h]; exact toInt32_two_pow_32_add k (by omega)
  have h2 : toInt32 (c.take k).length = (k : Int) := by
    rw [List.length_take, h]
    have : min k (4294967296 + k) = k := by omega
    rw [this]
    exact toInt32_of_lt _ (by omega)
  unfold whatA_populate
  simp only [h1, h2]
  rw [if_neg (by omega), if_neg (by omega)]
  simp [List.take_take]

theorem whatB_populate_wraps (a b : Int) (c : List Nat) (m : Mem) (k : Nat)
    (hk : k ≤ 250) (h : c.length = 4294967296 + k) :
    (whatB_populate a b c m).bad = none
      ∧ (whatB_populate a b c m).mem = (whatB_populate a b (c.take k) m).mem := by
  have h1 : toInt32 c.length = (k : Int) := by rw [h]; exact toInt32_two_pow_32_add k (by omega)
  have h2 : toInt32 (c.take k).length = (k : Int) := by
    rw [List.length_take, h]
    have : min k (4294967296 + k) = k := by omega
    rw [this]
    exact toInt32_of_lt _ (by omega)
  unfold whatB_populate
  simp only [h1, h2]
  rw [if_neg (by omega), if_neg (by omega)]
  simp [List.take_take]

theorem setLength_apply_out (m : Mem) (v i : Int) (h : 4 ≤ i) : setLength m v i = m i := by
  unfold setLength
  apply write_apply_out
  simp only [length_encLE]
  omega

/-- The common shape of the four marker-appending steps: two stores into the fixed
fields, the marker copied to `buffer + length`, the length field increased. -/
theorem marker_step (m : Mem) (f1 f2 mk : List Nat) (o1 o2 fixedEnd L : Int)
    (ho1 : 8 ≤ o1) (ho1e : o1 + f1.length ≤ fixedEnd)
    (ho2 : 8 ≤ o2) (ho2e : o2 + f2.length ≤ fixedEnd)
    (hL : frameLength m = L) (h8 : 8 ≤ L) (hmax : L + mk.length < 2147483648) :
    MarkerAppended m
      (setLength (write (write (write m o1 f1) o2 f2) (frameLength (write (write m o1 f1) o2 f2)) mk)
        (frameLength (write (write (write m o1 f1) o2 f2)
          (frameLength (write (write m o1 f1) o2 f2)) mk) + (mk.length : Int)))
      L mk fixedEnd := by
  have e2 : frameLength (write (write m o1 f1) o2 f2) = L := by
    rw [frameLength_write_out _ _ _ (by omega), frameLength_write_out _ _ _ (by omega), hL]
  rw [e2]
  have e3 : frameLength (write (write (write m o1 f1) o2 f2) L mk) = L := by
    rw [frameLength_write_out _ _ _ (by omega), e2]
  rw [e3]
  have hkeep : ∀ i : Int, (4 ≤ i ∧ i < 8) ∨ (fixedEnd ≤ i ∧ i < L) →
      setLength (write (write (write m o1 f1) o2 f2) L mk) (L + (mk.length : Int)) i = m i := by
    intro i hi
    rw [setLength_apply_out _ _ _ (by omega), write_apply_out _ _ _ _ (by omega),
      write_apply_out _ _ _ _ (by omega), write_apply_out _ _ _ _ (by omega)]
  refine ⟨?_, ?_, ?_, ?_, ?_, ?_⟩
  · rw [frameLength_setLength]
    exact toInt32_wrap32 _ (by omega) (by omega)
  · unfold setLength
    rw [readBytes_write_out _ _ _ _ _ (by simp only [length_encLE]; omega), readBytes_write_same]
  · rw [frameType_setLength, frameType_write_out _ _ _ (by omega),
      frameType_write_out _ _ _ (by omega), frameType_write_out _ _ _ (by omega)]
  · intro i h1 h2
    exact hkeep i (Or.inl ⟨h1, h2⟩)
  · intro i h1 h2
    exact hkeep i (Or.inr ⟨h1, h2⟩)
  · intro i h1 h2 hne
    by_contra hcon
    apply hne
    apply hkeep
    omega

theorem whatA_modify_marker (fmul dmul : Nat → Nat) (m : Mem) (L : Int)
    (hL : frameLength m = L) (h8 : 8 ≤ L) (hmax : L + 3 < 2147483648) :
    MarkerAppended m (whatA_modify fmul dmul m) L [41, 62, 45] 20 :=
  marker_step m (encLE 4 (fmul (theFlt m)))
    (encLE 8 (dmul (theDbl (write m 8 (encLE 4 (fmul (theFlt m))))))) [41, 62, 45] 8 12 20 L
    (by omega) (by simp [length_encLE]) (by omega) (by simp [length_encLE]) hL h8 hmax

theorem whatB_modify_marker (d : Int) (m : Mem) (L : Int)
    (hL : frameLength m = L) (h8 : 8 ≤ L) (hmax : L + 4 < 2147483648) :
    MarkerAppended m (whatB_modify d m) L [45, 60, 40, 48] 14 :=
  marker_step m (encLE 2 (wrap16 (theShort m * d)))
    (encLE 4 (wrap32 (theInt (write m 8 (encLE 2 (wrap16 (theShort m * d))))
      * toInt32 (wrap32 (d * d))))) [45, 60, 40, 48] 8 10 14 L
    (by omega) (by simp [length_encLE]) (by omega) (by simp [length_encLE]) hL h8 hmax

theorem pipex_caseA_marker (fmul dmul : Nat → Nat) (m : Mem) (L : Int)
    (hL : frameLength m = L) (h8 : 8 ≤ L) (hmax : L + 3 < 2147483648) :
    MarkerAppended m (pipex_caseA fmul dmul m) L [41, 62, 45] 20 :=
  marker_step m (encLE 4 (fmul (theFlt m)))
    (encLE 8 (dmul (theDbl (write m 8 (encLE 4 (fmul (theFlt m))))))) [41, 62, 45] 8 12 20 L
    (by omega) (by simp [length_encLE]) (by omega) (by simp [length_encLE]) hL h8 hmax

theorem pipex_caseB_marker (m : Mem) (L : Int)
    (hL : frameLength m = L) (h8 : 8 ≤ L) (hmax : L + 3 < 2147483648) :
    MarkerAppended m (pipex_caseB m) L [45, 60, 40] 14 :=
  marker_step m (encLE 2 (wrap16 (theShort m * 2)))
    (encLE 4 (wrap32 (theInt (write m 8 (encLE 2 (wrap16 (theShort m * 2)))) * 32)))
    [45, 60, 40] 8 10 14 L
    (by omega) (by simp [length_encLE]) (by omega) (by simp [length_encLE]) hL h8 hmax

/-- The text bytes land at offsets 20 and up, whatever their number. -/
theorem whatA_populate_text_byte (a b : Nat) (txt : List Nat) (m : Mem) (k : Nat)
    (h : txt.length ≤ 250) (hk : k < txt.length) :
    (whatA_populate a b txt m).mem (20 + (k : Int)) = txt[k] := by
  rw [whatA_populate_mem a b txt m h]
  exact write_apply_in _ 20 txt k hk

/-! ## Claims about the codec -/

/-- Claim C1, evaluated where the code departs from it.  A text of 237 bytes is within
the 250 bytes `whatA::populate` accepts, the frame written declares length 257, and
`whatA::serialize` refuses that buffer ("Bad length: 257") instead of giving the record
back; the same happens to `whatB` with a text of 243 bytes. -/
theorem roundtrip_refused_for_long_text (a b : Nat) (s i : Int) (m : Mem) :
    ((whatA_populate a b (List.replicate 237 120) m).bad = none
        ∧ whatA_serialize (whatA_populate a b (List.replicate 237 120) m).mem
            = SerA.badLength 257)
      ∧ ((whatB_populate s i (List.replicate 243 120) m).bad = none
        ∧ whatB_serialize (whatB_populate s i (List.replicate 243 120) m).mem
            = SerB.badLength 257) := by
  have hA := whatA_serialize_populate_long a b (List.replicate 237 120) m
    (by rw [List.length_replicate]; omega) (by rw [List.length_replicate]; omega)
  have hB := whatB_serialize_populate_long s i (List.replicate 243 120) m
    (by rw [List.length_replicate]; omega) (by rw [List.length_replicate]; omega)
  rw [List.length_replicate] at hA hB
  norm_num at hA hB
  exact ⟨⟨whatA_populate_bad _ _ _ _ (by rw [List.length_replicate]; omega), hA⟩,
    ⟨whatB_populate_bad _ _ _ _ (by rw [List.length_replicate]; omega), hB⟩⟩

/-- Claim C2: for every text `c` of at most 250 bytes, `whatA::populate` succeeds and
leaves length `8 + 12 + |c|` and type 10 in the frame, `whatB::populate` succeeds and
leaves length `8 + 6 + |c|` and type 11; neither type is the reserved tag 0. -/
theorem populate_length_and_tag (a b : Nat) (s i : Int) (c : List Nat) (m : Mem)
    (h : c.length ≤ 250) :
    ((whatA_populate a b c m).bad = none
        ∧ frameLength (whatA_populate a b c m).mem = 8 + 12 + (c.length : Int)
        ∧ frameType (whatA_populate a b c m).mem = 10)
      ∧ ((whatB_populate s i c m).bad = none
        ∧ frameLength (whatB_populate s i c m).mem = 8 + 6 + (c.length : Int)
        ∧ frameType (whatB_populate s i c m).mem = 11)
      ∧ frameType (whatA_populate a b c m).mem ≠ typeNone
      ∧ frameType (whatB_populate s i c m).mem ≠ typeNone := by
  have hA := whatA_populate_length a b c m h
  have hB := whatB_populate_length s i c m h
  have tA := whatA_populate_type a b c m h
  have tB := whatB_populate_type s i c m h
  refine ⟨⟨whatA_populate_bad a b c m h, by omega, tA⟩,
    ⟨whatB_populate_bad s i c m h, by omega, tB⟩, ?_, ?_⟩
  · rw [tA]; decide
  · rw [tB]; decide

/-- Claim C2 at the text "hi" written into the zeroed buffer. -/
theorem populate_length_and_tag_witness :
    [104, 105].length ≤ 250
      ∧ (((whatA_populate 1 2 [104, 105] zeroMem).bad = none
          ∧ frameLength (whatA_populate 1 2 [104, 105] zeroMem).mem = 8 + 12 + (([104, 105] : List Nat).length : Int)
          ∧ frameType (whatA_populate 1 2 [104, 105] zeroMem).mem = 10)
        ∧ ((whatB_populate 3 4 [104, 105] zeroMem).bad = none
          ∧ frameLength (whatB_populate 3 4 [104, 105] zeroMem).mem = 8 + 6 + (([104, 105] : List Nat).length : Int)
          ∧ frameType (whatB_populate 3 4 [104, 105] zeroMem).mem = 11)
        ∧ frameType (whatA_populate 1 2 [104, 105] zeroMem).mem ≠ typeNone
        ∧ frameType (whatB_populate 3 4 [104, 105] zeroMem).mem ≠ typeNone) :=
  ⟨by decide, populate_length_and_tag 1 2 3 4 [104, 105] zeroMem (by decide)⟩

/-- Claim C3, evaluated where the code departs from it.  `int cSize = c.size()` keeps
only the low 32 bits of the size, so a text of 4294967296 bytes, far longer than 250,
is seen as size 0: the size check passes and a frame (length 20 and type 10 for variant
A, length 14 and type 11 for variant B) is written over the buffer. -/
theorem populate_accepts_wrapped_size (a b : Nat) (s i : Int) (m : Mem) :
    250 < (List.replicate 4294967296 0).length
      ∧ ((whatA_populate a b (List.replicate 4294967296 0) m).bad = none
        ∧ frameLength (whatA_populate a b (List.replicate 4294967296 0) m).mem = 20
        ∧ frameType (whatA_populate a b (List.replicate 4294967296 0) m).mem = 10)
      ∧ ((whatB_populate s i (List.replicate 4294967296 0) m).bad = none
        ∧ frameLength (whatB_populate s i (List.replicate 4294967296 0) m).mem = 14
        ∧ frameType (whatB_populate s i (List.replicate 4294967296 0) m).mem = 11) := by
  obtain ⟨a1, a2⟩ := whatA_populate_wraps a b (List.replicate 4294967296 0) m 0 (by omega)
    (by rw [List.length_replicate])
  obtain ⟨b1, b2⟩ := whatB_populate_wraps s i (List.replicate 4294967296 0) m 0 (by omega)
    (by rw [List.length_replicate])
  rw [List.take_zero] at a2 b2
  have la := whatA_populate_length a b [] m (by simp)
  have lb := whatB_populate_length s i [] m (by simp)
  have ta := whatA_populate_type a b [] m (by simp)
  have tb := whatB_populate_type s i [] m (by simp)
  rw [a2, b2]
  refine ⟨by rw [List.length_replicate]; omega, ⟨a1, ?_, ta⟩, ⟨b1, ?_, tb⟩⟩
  · simpa using la
  · simpa using lb

/-- The length check of `whatA::serialize` refuses exactly the lengths below 0 and
above 256. -/
theorem whatA_serialize_badLength_iff (m : Mem) :
    (∃ l, whatA_serialize m = SerA.badLength l) ↔ (frameLength m < 0 ∨ 256 < frameLength m) := by
  unfold whatA_serialize
  by_cases h : frameLength m < 0 ∨ frameLength m > 256
  · simp only [if_pos h]
    exact ⟨fun _ => h, fun _ => ⟨_, rfl⟩⟩
  · simp only [if_neg h]
    constructor
    · rintro ⟨l, hl⟩
      split at hl <;> simp at hl
    · intro h2
      exact absurd h2 h

/-- A declared length from 0 to 19 passes the length check of `whatA::serialize` and
makes the text size negative. -/
theorem whatA_serialize_short (m : Mem) (h0 : 0 ≤ frameLength m) (h1 : frameLength m < 20) :
    whatA_serialize m = SerA.lengthError := by
  unfold whatA_serialize
  simp only [sizeofWhatA]
  rw [if_neg (by omega)]
  have hs : toInt32 (toSizeT (frameLength m - 20)) < 0 := by
    unfold toInt32 toSizeT
    split <;> omega
  rw [if_pos hs]

/-- A declared length from 0 to 13 passes the length check of `whatB::serialize` and
makes the text size negative. -/
theorem whatB_serialize_short (m : Mem) (h0 : 0 ≤ frameLength m) (h1 : frameLength m < 14) :
    whatB_serialize m = SerB.lengthError := by
  unfold whatB_serialize
  simp only [sizeofWhatB]
  rw [if_neg (by omega)]
  have hs : toInt32 (toSizeT (frameLength m - 14)) < 0 := by
    unfold toInt32 toSizeT
    split <;> omega
  rw [if_pos hs]

/-- Claim C4, evaluated where the code departs from it.  The zeroed buffer declares
length 0, which lies outside `[8, 256]`; the check `length < 0 || length > 256` lets it
through, the text size becomes `0 - sizeof`, negative, and the construction of the text
throws `std::length_error` rather than reporting a bad length.  The same holds for a
declared length of 7. -/
theorem serialize_lets_short_length_through :
    frameLength zeroMem = 0
      ∧ whatA_serialize zeroMem = SerA.lengthError
      ∧ whatB_serialize zeroMem = SerB.lengthError
      ∧ frameLength (setLength zeroMem 7) = 7
      ∧ whatA_serialize (setLength zeroMem 7) = SerA.lengthError
      ∧ whatB_serialize (setLength zeroMem 7) = SerB.lengthError := by
  have h0 : frameLength zeroMem = 0 := by decide
  have h7 : frameLength (setLength zeroMem 7) = 7 := by
    rw [frameLength_setLength]; decide
  exact ⟨h0, whatA_serialize_short _ (by omega) (by omega),
    whatB_serialize_short _ (by omega) (by omega), h7,
    whatA_serialize_short _ (by omega) (by omega),
    whatB_serialize_short _ (by omega) (by omega)⟩

/-- Claim C5, evaluated where the code departs from it.  `whatA::populate` accepts a
text of 237 bytes, declares length 257 and stores the last text byte at offset 256, the
first byte past the 256-byte buffer; and `whatA::modify`, applied to the frame of
declared length 256 that a text of 236 bytes gives, declares length 259 and stores the
marker at offsets 256 to 258. -/
theorem frame_limit_exceeded (a b : Nat) (fmul dmul : Nat → Nat) (m : Mem) :
    ((whatA_populate a b (List.replicate 237 65) m).bad = none
        ∧ frameLength (whatA_populate a b (List.replicate 237 65) m).mem = 257
        ∧ (whatA_populate a b (List.replicate 237 65) m).mem 256 = 65)
      ∧ (frameLength (whatA_populate a b (List.replicate 236 65) m).mem = 256
        ∧ frameLength (whatA_modify fmul dmul
            (whatA_populate a b (List.replicate 236 65) m).mem) = 259
        ∧ readBytes (whatA_modify fmul dmul
            (whatA_populate a b (List.replicate 236 65) m).mem) 256 3 = [41, 62, 45]) := by
  have l7 : (List.replicate 237 65).length ≤ 250 := by rw [List.length_replicate]; omega
  have l6 : (List.replicate 236 65).length ≤ 250 := by rw [List.length_replicate]; omega
  have h7 := whatA_populate_length a b (List.replicate 237 65) m l7
  have h6 := whatA_populate_length a b (List.replicate 236 65) m l6
  rw [List.length_replicate] at h7 h6
  norm_num at h7 h6
  have hby : (whatA_populate a b (List.replicate 237 65) m).mem 256 = 65 := by
    have hk : (236 : Nat) < (List.replicate 237 65).length := by
      rw [List.length_replicate]; omega
    have hw := whatA_populate_text_byte a b (List.replicate 237 65) m 236 l7 hk
    rw [List.getElem_replicate] at hw
    have e : (20 : Int) + ((236 : Nat) : Int) = 256 := by decide
    rw [e] at hw
    exact hw
  have hm := whatA_modify_marker fmul dmul _ 256 h6 (by omega) (by omega)
  obtain ⟨m1, m2, -⟩ := hm
  exact ⟨⟨whatA_populate_bad _ _ _ _ l7, h7, hby⟩, h6, by simpa using m1, by simpa using m2⟩

/-- Claim C6: on a frame of declared length `L` with `8 ≤ L`, each marker-appending step
(`whatA::modify` with the 3 bytes `)>-`, `whatB::modify` with the 4 bytes `-<(0`, the
`typeA` branch of pipex with `)>-`, the `typeB` branch of pipex with `-<(`) leaves, when
`L` plus the marker size is at most 256, a frame whose length field is `L` plus the marker
size, whose bytes from offset `L` on are the marker, whose type tag and text bytes are
unchanged, and in which the only changed bytes before `L` are in the length field and
in the fixed fields. -/
theorem marker_append_accounting (fmul dmul : Nat → Nat) (m : Mem) (L : Int)
    (hL : frameLength m = L) (h8 : 8 ≤ L) :
    (L + 3 ≤ 256 → MarkerAppended m (whatA_modify fmul dmul m) L [41, 62, 45] 20)
      ∧ (L + 4 ≤ 256 → MarkerAppended m (whatB_modify 3 m) L [45, 60, 40, 48] 14)
      ∧ (L + 3 ≤ 256 → MarkerAppended m (pipex_caseA fmul dmul m) L [41, 62, 45] 20)
      ∧ (L + 3 ≤ 256 → MarkerAppended m (pipex_caseB m) L [45, 60, 40] 14) :=
  ⟨fun h => whatA_modify_marker fmul dmul m L hL h8 (by omega),
    fun h => whatB_modify_marker 3 m L hL h8 (by omega),
    fun h => pipex_caseA_marker fmul dmul m L hL h8 (by omega),
    fun h => pipex_caseB_marker m L hL h8 (by omega)⟩

/-- Claim C6 at the demonstration frame of variant B, whose declared length is 15. -/
theorem marker_append_accounting_witness :
    frameLength exampleFrameB = 15 ∧ (8 : Int) ≤ 15
      ∧ MarkerAppended exampleFrameB (whatA_modify id id exampleFrameB) 15 [41, 62, 45] 20
      ∧ MarkerAppended exampleFrameB (whatB_modify 3 exampleFrameB) 15 [45, 60, 40, 48] 14
      ∧ MarkerAppended exampleFrameB (pipex_caseA id id exampleFrameB) 15 [41, 62, 45] 20
      ∧ MarkerAppended exampleFrameB (pipex_caseB exampleFrameB) 15 [45, 60, 40] 14 :=
  ⟨by decide, by decide,
    (marker_append_accounting id id exampleFrameB 15 (by decide) (by decide)).1 (by decide),
    (marker_append_accounting id id exampleFrameB 15 (by decide) (by decide)).2.1 (by decide),
    (marker_append_accounting id id exampleFrameB 15 (by decide) (by decide)).2.2.1 (by decide),
    (marker_append_accounting id id exampleFrameB 15 (by decide) (by decide)).2.2.2 (by decide)⟩

/-! ## Facts about the transport and the transformer loops -/

theorem write_nil (m : Mem) (off : Int) : write m off [] = m := by
  funext i
  rw [write_apply, if_neg]
  simp only [List.length_nil, Nat.cast_zero]
  omega

theorem toSizeT_body (L : Nat) (h4 : 4 ≤ L) (hmax : L < 2147483648) :
    toSizeT (toInt32 (wrap32 ((L : Int) - 4))) = L - 4 := by
  rw [toInt32_wrap32 _ (by omega) (by omega)]
  unfold toSizeT
  omega

theorem frameLength_header (m : Mem) (L : Nat) (hmax : L < 2147483648) :
    frameLength (write m 0 (encLE 4 L)) = (L : Int) := by
  have h := frameLength_setLength m (L : Int)
  unfold setLength at h
  have hw : wrap32 (L : Int) = L := by unfold wrap32; omega
  rw [hw] at h
  rw [h, toInt32_of_lt _ hmax]

/-- A read that finds at least the bytes it asks for. -/
theorem fread_full (m : Mem) (off : Int) (n : Nat) (pre post : List Nat) (h : pre.length = n) :
    fread m off n (pre ++ post) = { mem := write m off pre, file := post, count := n } := by
  unfold fread
  rw [List.take_left' h, List.drop_left' h, h]

/-- A read that meets the end of the stream. -/
theorem fread_short (m : Mem) (off : Int) (n : Nat) (file : List Nat) (h : file.length ≤ n) :
    fread m off n file = { mem := write m off file, file := [], count := file.length } := by
  unfold fread
  rw [List.take_of_length_le h, List.drop_of_length_le h]

theorem readIn_frame (m : Mem) (L t : Nat) (body rest : List Nat)
    (hL : body.length + 8 = L) (hmax : L < 2147483648) (ht : t < 4294967296) :
    readIn m (encLE 4 L ++ encLE 4 t ++ body ++ rest) =
      { mem := write m 0 (encLE 4 L ++ encLE 4 t ++ body), file := rest, type := t } := by
  have r1 : fread m 0 4 (encLE 4 L ++ encLE 4 t ++ body ++ rest)
      = { mem := write m 0 (encLE 4 L), file := encLE 4 t ++ body ++ rest, count := 4 } := by
    rw [List.append_assoc, List.append_assoc, ← List.append_assoc (encLE 4 t)]
    exact fread_full m 0 4 _ _ (length_encLE 4 L)
  have hl2 : (encLE 4 t ++ body).length = L - 4 := by
    rw [List.length_append, length_encLE]; omega
  have r2 : fread (write m 0 (encLE 4 L)) 4 (L - 4) (encLE 4 t ++ body ++ rest)
      = { mem := write (write m 0 (encLE 4 L)) 4 (encLE 4 t ++ body), file := rest,
          count := L - 4 } := fread_full _ 4 _ _ _ hl2
  have hty : frameType (write (write m 0 (encLE 4 L)) 4 (encLE 4 t ++ body)) = t := by
    unfold frameType
    have h1 := readBytes_write_head (write m 0 (encLE 4 L)) 4 (encLE 4 t) body
    rw [length_encLE] at h1
    rw [h1, decLE_encLE]
    exact Nat.mod_eq_of_lt (by simpa using ht)
  have hadj : write (write m 0 (encLE 4 L)) 4 (encLE 4 t ++ body)
      = write m 0 (encLE 4 L ++ encLE 4 t ++ body) := by
    have h1 := write_append m 0 (encLE 4 L) (encLE 4 t ++ body)
    rw [length_encLE] at h1
    rw [List.append_assoc]
    simpa using h1
  unfold readIn
  rw [r1]
  simp only []
  rw [if_neg (by omega), frameLength_header m L hmax, toSizeT_body L (by omega) hmax, r2]
  simp only []
  rw [if_neg (by omega), hty, hadj]

theorem readIn_eof (m : Mem) : readIn m [] = { mem := m, file := [], type := typeNone } := by
  have r1 : fread m 0 4 [] = { mem := m, file := [], count := 0 } := by
    have h := fread_short m 0 4 [] (by simp)
    rw [write_nil] at h
    exact h
  unfold readIn
  rw [r1]
  simp only []
  rw [if_pos trivial]

/-- What is in the buffer after a whole frame has been read is the frame. -/
theorem readBytes_frame (m : Mem) (L t : Nat) (body : List Nat) (hL : body.length + 8 = L) :
    readBytes (write m 0 (encLE 4 L ++ encLE 4 t ++ body)) 0 L
      = encLE 4 L ++ encLE 4 t ++ body := by
  have h := readBytes_write_same m 0 (encLE 4 L ++ encLE 4 t ++ body)
  have hl : (encLE 4 L ++ encLE 4 t ++ body).length = L := by
    simp only [List.length_append, length_encLE]; omega
  rw [hl] at h
  exact h

theorem frameLength_frame (m : Mem) (L t : Nat) (body : List Nat) (hmax : L < 2147483648) :
    frameLength (write m 0 (encLE 4 L ++ encLE 4 t ++ body)) = (L : Int) := by
  rw [List.append_assoc, ← write_append, frameLength_write_out _ _ _ (by simp [length_encLE])]
  exact frameLength_header m L hmax

theorem toSizeT_of_nat (L : Nat) (hmax : L < 2147483648) : toSizeT (L : Int) = L := by
  unfold toSizeT
  omega

/-- One pass of the pipey loop over a frame whose tag is none of 0, 10, 11. -/
theorem pipey_childCycle_other (fmul dmul : Nat → Nat) (p : Proc) (L t : Nat)
    (body rest : List Nat)
    (hL : body.length + 8 = L) (hmax : L < 2147483648) (ht : t < 4294967296)
    (hA : t ≠ 10) (hB : t ≠ 11) (h0 : t ≠ 0)
    (hin : p.rFile = encLE 4 L ++ encLE 4 t ++ body ++ rest) :
    pipey_childCycle fmul dmul p =
      Step.next { buff := memsetZero (write p.buff 0 (encLE 4 L ++ encLE 4 t ++ body)),
                  rFile := rest,
                  wFile := p.wFile ++ (encLE 4 L ++ encLE 4 t ++ body) } := by
  unfold pipey_childCycle
  rw [hin, readIn_frame p.buff L t body rest hL hmax ht]
  simp only [typeA, typeB, typeNone]
  rw [if_neg hA, if_neg hB, if_neg h0]
  unfold writeOut fwrite
  rw [frameLength_frame _ _ _ _ hmax, toSizeT_of_nat L hmax, readBytes_frame _ _ _ _ hL]

/-- One pass of the pipey loop over a frame whose tag is 0. -/
theorem pipey_childCycle_zero (fmul dmul : Nat → Nat) (p : Proc) (L : Nat)
    (body rest : List Nat)
    (hL : body.length + 8 = L) (hmax : L < 2147483648)
    (hin : p.rFile = encLE 4 L ++ encLE 4 0 ++ body ++ rest) :
    pipey_childCycle fmul dmul p =
      Step.done { buff := write p.buff 0 (encLE 4 L ++ encLE 4 0 ++ body),
                  rFile := rest, wFile := p.wFile } := by
  unfold pipey_childCycle
  rw [hin, readIn_frame p.buff L 0 body rest hL hmax (by omega)]
  simp only [typeA, typeB, typeNone]
  rw [if_neg (by omega), if_neg (by omega), if_pos trivial]

/-- One pass of the pipex loop over a frame whose tag is neither 10 nor 11. -/
theorem pipex_childCycle_other (fmul dmul : Nat → Nat) (p : Proc) (L t : Nat)
    (body rest : List Nat)
    (hL : body.length + 8 = L) (hmax : L < 2147483648) (ht : t < 4294967296)
    (hA : t ≠ 10) (hB : t ≠ 11)
    (hin : p.rFile = encLE 4 L ++ encLE 4 t ++ body ++ rest) :
    pipex_childCycle fmul dmul p =
      Step.next { buff := memsetZero (write p.buff 0 (encLE 4 L ++ encLE 4 t ++ body)),
                  rFile := rest,
                  wFile := p.wFile ++ (encLE 4 L ++ encLE 4 t ++ body) } := by
  have r1 : fread p.buff 0 4 (encLE 4 L ++ encLE 4 t ++ body ++ rest)
      = { mem := write p.buff 0 (encLE 4 L), file := encLE 4 t ++ body ++ rest, count := 4 } := by
    rw [List.append_assoc, List.append_assoc, ← List.append_assoc (encLE 4 t)]
    exact fread_full p.buff 0 4 _ _ (length_encLE 4 L)
  have hl2 : (encLE 4 t ++ body).length = L - 4 := by
    rw [List.length_append, length_encLE]; omega
  have r2 : fread (write p.buff 0 (encLE 4 L)) 4 (L - 4) (encLE 4 t ++ body ++ rest)
      = { mem := write (write p.buff 0 (encLE 4 L)) 4 (encLE 4 t ++ body), file := rest,
          count := L - 4 } := fread_full _ 4 _ _ _ hl2
  have hadj : write (write p.buff 0 (encLE 4 L)) 4 (encLE 4 t ++ body)
      = write p.buff 0 (encLE 4 L ++ encLE 4 t ++ body) := by
    have h1 := write_append p.buff 0 (encLE 4 L) (encLE 4 t ++ body)
    rw [length_encLE] at h1
    rw [List.append_assoc]
    simpa using h1
  have hty : frameType (write p.buff 0 (encLE 4 L ++ encLE 4 t ++ body)) = t := by
    rw [← hadj]
    unfold frameType
    have h1 := readBytes_write_head (write p.buff 0 (encLE 4 L)) 4 (encLE 4 t) body
    rw [length_encLE] at h1
    rw [h1, decLE_encLE]
    exact Nat.mod_eq_of_lt (by simpa using ht)
  unfold pipex_childCycle
  rw [hin, r1]
  simp only []
  rw [if_neg (by omega), frameLength_header _ L hmax, toSizeT_body L (by omega) hmax, r2]
  simp only []
  rw [if_neg (by omega), hadj, hty]
  simp only [typeA, typeB]
  rw [if_neg hA, if_neg hB]
  unfold fwrite
  rw [frameLength_frame _ _ _ _ hmax, toSizeT_of_nat L hmax, readBytes_frame _ _ _ _ hL]

theorem wrap16_mod (x : Int) : toInt16 (wrap16 x % 256 ^ 2) % 65536 = x % 65536 := by
  unfold toInt16 wrap16
  norm_num
  split <;> omega

theorem wrap32_mod (x : Int) : toInt32 (wrap32 x % 256 ^ 4) % 4294967296 = x % 4294967296 := by
  unfold toInt32 wrap32
  norm_num
  split <;> omega

/-- After a variant B step on a frame of at least 14 bytes the two fixed fields hold
what the step stored: the marker and the new length lie elsewhere. -/
theorem fieldsB_step (m : Mem) (f1 f2 mk : List Nat) (v L : Int)
    (hf1 : f1.length = 2) (hf2 : f2.length = 4) (h14 : 14 ≤ L) :
    readBytes (setLength (write (write (write m 8 f1) 10 f2) L mk) v) 8 2 = f1
      ∧ readBytes (setLength (write (write (write m 8 f1) 10 f2) L mk) v) 10 4 = f2 := by
  unfold setLength
  constructor
  · rw [readBytes_write_out _ _ _ _ _ (by simp [length_encLE]),
      readBytes_write_out _ _ _ _ _ (by omega),
      readBytes_write_out _ _ _ _ _ (by omega)]
    have h := readBytes_write_same m 8 f1
    rw [hf1] at h
    exact h
  · rw [readBytes_write_out _ _ _ _ _ (by simp [length_encLE]),
      readBytes_write_out _ _ _ _ _ (by omega)]
    have h := readBytes_write_same (write m 8 f1) 10 f2
    rw [hf2] at h
    exact h

theorem theInt_write_short (m : Mem) (f1 : List Nat) (hf1 : f1.length = 2) :
    theInt (write m 8 f1) = theInt m := by
  unfold theInt
  rw [readBytes_write_out _ _ _ _ _ (by omega)]

theorem pipex_caseB_fields (m : Mem) (L : Int) (hL : frameLength m = L) (h14 : 14 ≤ L) :
    theShort (pipex_caseB m) % 65536 = (2 * theShort m) % 65536
      ∧ theInt (pipex_caseB m) % 4294967296 = (32 * theInt m) % 4294967296 := by
  have e2 : frameLength (write (write m 8 (encLE 2 (wrap16 (theShort m * 2)))) 10
      (encLE 4 (wrap32 (theInt (write m 8 (encLE 2 (wrap16 (theShort m * 2)))) * 32)))) = L := by
    rw [frameLength_write_out _ _ _ (by omega), frameLength_write_out _ _ _ (by omega), hL]
  unfold pipex_caseB
  simp only []
  rw [e2]
  obtain ⟨h1, h2⟩ := fieldsB_step m (encLE 2 (wrap16 (theShort m * 2)))
    (encLE 4 (wrap32 (theInt (write m 8 (encLE 2 (wrap16 (theShort m * 2)))) * 32)))
    [45, 60, 40]
    (frameLength (write (write (write m 8 (encLE 2 (wrap16 (theShort m * 2)))) 10
      (encLE 4 (wrap32 (theInt (write m 8 (encLE 2 (wrap16 (theShort m * 2)))) * 32))))
      L [45, 60, 40]) + 3)
    L (length_encLE _ _) (length_encLE _ _) h14
  constructor
  · rw [theShort, h1, decLE_encLE, wrap16_mod, mul_comm]
  · rw [theInt, h2, decLE_encLE, wrap32_mod, theInt_write_short _ _ (length_encLE _ _), mul_comm]

theorem whatB_modify_fields (m : Mem) (L : Int) (hL : frameLength m = L) (h14 : 14 ≤ L) :
    theShort (whatB_modify 3 m) % 65536 = (3 * theShort m) % 65536
      ∧ theInt (whatB_modify 3 m) % 4294967296 = (9 * theInt m) % 4294967296 := by
  have e2 : frameLength (write (write m 8 (encLE 2 (wrap16 (theShort m * 3)))) 10
      (encLE 4 (wrap32 (theInt (write m 8 (encLE 2 (wrap16 (theShort m * 3))))
        * toInt32 (wrap32 (3 * 3)))))) = L := by
    rw [frameLength_write_out _ _ _ (by omega), frameLength_write_out _ _ _ (by omega), hL]
  have e9 : toInt32 (wrap32 (3 * 3)) = 9 := by decide
  unfold whatB_modify
  simp only []
  rw [e2]
  obtain ⟨h1, h2⟩ := fieldsB_step m (encLE 2 (wrap16 (theShort m * 3)))
    (encLE 4 (wrap32 (theInt (write m 8 (encLE 2 (wrap16 (theShort m * 3))))
      * toInt32 (wrap32 (3 * 3)))))
    [45, 60, 40, 48]
    (frameLength (write (write (write m 8 (encLE 2 (wrap16 (theShort m * 3)))) 10
      (encLE 4 (wrap32 (theInt (write m 8 (encLE 2 (wrap16 (theShort m * 3))))
        * toInt32 (wrap32 (3 * 3))))))
      L [45, 60, 40, 48]) + 4)
    L (length_encLE _ _) (length_encLE _ _) h14
  constructor
  · rw [theShort, h1, decLE_encLE, wrap16_mod, mul_comm]
  · rw [theInt, h2, decLE_encLE, wrap32_mod, theInt_write_short _ _ (length_encLE _ _), e9,
      mul_comm]

theorem fread_eof (m : Mem) (off : Int) (n : Nat) :
    fread m off n [] = { mem := m, file := [], count := 0 } := by
  have h := fread_short m off n [] (by simp)
  rw [write_nil] at h
  exact h

/-- At end of stream one pass of the pipex loop leaves the loop and writes nothing. -/
theorem pipex_childCycle_eof (fmul dmul : Nat → Nat) (p : Proc) (h : p.rFile = []) :
    pipex_childCycle fmul dmul p = Step.done { buff := p.buff, rFile := [], wFile := p.wFile } := by
  unfold pipex_childCycle
  rw [h, fread_eof]
  simp only []
  rw [if_pos trivial]

/-- At end of stream one pass of the pipey loop leaves the loop and writes nothing. -/
theorem pipey_childCycle_eof (fmul dmul : Nat → Nat) (p : Proc) (h : p.rFile = []) :
    pipey_childCycle fmul dmul p = Step.done { buff := p.buff, rFile := [], wFile := p.wFile } := by
  unfold pipey_childCycle
  rw [h, readIn_eof]
  simp only [typeA, typeB, typeNone]
  rw [if_neg (by omega), if_neg (by omega), if_pos trivial]

/-- The pipex and pipey transformer loops end at end of stream having written nothing
and with the buffer as it was. -/
theorem child_loops_end_at_eof (fmul dmul : Nat → Nat) (p : Proc) (fuel : Nat)
    (h : p.rFile = []) :
    pipex_doChildStuff fmul dmul (fuel + 1) p
        = some { buff := p.buff, rFile := [], wFile := p.wFile }
      ∧ pipey_doChildStuff fmul dmul (fuel + 1) p
        = some { buff := p.buff, rFile := [], wFile := p.wFile } := by
  constructor
  · rw [pipex_doChildStuff, pipex_childCycle_eof fmul dmul p h]
  · rw [pipey_doChildStuff, pipey_childCycle_eof fmul dmul p h]

theorem pipes_childCycle_isDone (fmul dmul : Nat → Nat) (p : Proc) :
    (pipes_childCycle fmul dmul p).isDone = false := rfl

theorem pipes_doChildStuff_none (fmul dmul : Nat → Nat) (fuel : Nat) :
    ∀ p : Proc, pipes_doChildStuff fmul dmul fuel p = none := by
  induction fuel with
  | zero => intro p; rfl
  | succ n ih =>
    intro p
    rw [pipes_doChildStuff]
    cases hc : pipes_childCycle fmul dmul p with
    | next q => exact ih q
    | done q =>
      have h := pipes_childCycle_isDone fmul dmul p
      rw [hc] at h
      cases h

theorem readBytes_zero_four (m : Mem) : readBytes m 0 4 = [m 0, m 1, m 2, m 3] := rfl

/-- The marker of pipes.cpp copied over a length field that reads 0. -/
theorem frameLength_marker_at_zero (m : Mem) (h3 : m 3 = 0) :
    frameLength (write m 0 [93, 61, 43]) = 2833757 := by
  unfold frameLength
  rw [readBytes_zero_four]
  have b0 : write m 0 [93, 61, 43] 0 = 93 := by rw [write_apply]; rfl
  have b1 : write m 0 [93, 61, 43] 1 = 61 := by rw [write_apply]; rfl
  have b2 : write m 0 [93, 61, 43] 2 = 43 := by rw [write_apply]; rfl
  have b3 : write m 0 [93, 61, 43] 3 = 0 := by
    rw [write_apply_out _ _ _ _ (by simp), h3]
  rw [b0, b1, b2, b3]
  decide


/-- The changes pipes.cpp makes to the zeroed buffer: the marker is copied to offset 0,
over the length field, which then reads 2833757 + 3. -/
theorem frameLength_pipes_modify_zero (fmul dmul : Nat → Nat) :
    frameLength (pipes_modify fmul dmul zeroMem) = 2833760 := by
  have hz : frameLength (write (write zeroMem 4
      (encLE 4 (fmul (decLE (readBytes zeroMem 4 4))))) 8
      (encLE 8 (dmul (decLE (readBytes (write zeroMem 4
        (encLE 4 (fmul (decLE (readBytes zeroMem 4 4))))) 8 8))))) = 0 := by
    rw [frameLength_write_out _ _ _ (by omega), frameLength_write_out _ _ _ (by omega)]
    decide
  have h3 : (write (write zeroMem 4
      (encLE 4 (fmul (decLE (readBytes zeroMem 4 4))))) 8
      (encLE 8 (dmul (decLE (readBytes (write zeroMem 4
        (encLE 4 (fmul (decLE (readBytes zeroMem 4 4))))) 8 8))))) 3 = 0 := by
    rw [write_apply_out _ _ _ _ (by omega), write_apply_out _ _ _ _ (by omega)]
    rfl
  unfold pipes_modify
  simp only []
  rw [hz, frameLength_marker_at_zero _ h3, frameLength_setLength]
  decide

/-- At end of stream one pass of the pipes.cpp loop still goes through the changes to
the struct and writes as many bytes as the length field then declares. -/
theorem pipes_childCycle_eof (fmul dmul : Nat → Nat) (p : Proc) (h : p.rFile = []) :
    ((pipes_childCycle fmul dmul p).proc.wFile).length
      = p.wFile.length + toSizeT (frameLength (pipes_modify fmul dmul p.buff)) := by
  unfold pipes_childCycle
  rw [h]
  simp only [fread_eof, Step.proc, fwrite, List.length_append, length_readBytes]

/-! ## Claims about the transformer -/

/-- Claim C7 fails as stated: a frame of declared length 8 with type tag 12, neither 10
nor 11, read from the stream by one pass of the transformer loop, is written back to
the reply stream, all 8 bytes of it, in pipex.cpp and in pipey.cpp alike. -/
theorem unknown_tag_reply_written :
    frameType (write zeroMem 0 [8, 0, 0, 0, 12, 0, 0, 0]) = 12
      ∧ (pipex_childCycle id id
          { buff := zeroMem, rFile := [8, 0, 0, 0, 12, 0, 0, 0], wFile := [] }).proc.wFile
        = [8, 0, 0, 0, 12, 0, 0, 0]
      ∧ (pipey_childCycle id id
          { buff := zeroMem, rFile := [8, 0, 0, 0, 12, 0, 0, 0], wFile := [] }).proc.wFile
        = [8, 0, 0, 0, 12, 0, 0, 0] := by
  decide

/-- Claim C7 as amended: when the stream starts with a whole frame of declared length
`L` (the 4 length bytes, the 4 type bytes of a tag `t` that is neither 10 nor 11, and
`L - 8` further bytes), one pass of the pipex loop goes on to the next pass having
appended exactly those `L` bytes, unchanged, to the reply stream; one pass of the pipey
loop does the same when `t` is not 0, and when `t` is 0 it leaves the loop having
written nothing. -/
theorem unknown_tag_frame_is_echoed (fmul dmul : Nat → Nat) (p : Proc) (L t : Nat)
    (body rest : List Nat)
    (hL : body.length + 8 = L) (hmax : L ≤ 256) (ht : t < 4294967296)
    (hA : t ≠ 10) (hB : t ≠ 11)
    (hin : p.rFile = encLE 4 L ++ encLE 4 t ++ body ++ rest) :
    ((pipex_childCycle fmul dmul p).isDone = false
        ∧ (pipex_childCycle fmul dmul p).proc.wFile
            = p.wFile ++ (encLE 4 L ++ encLE 4 t ++ body)
        ∧ (pipex_childCycle fmul dmul p).proc.rFile = rest)
      ∧ (t ≠ 0 →
          (pipey_childCycle fmul dmul p).isDone = false
            ∧ (pipey_childCycle fmul dmul p).proc.wFile
                = p.wFile ++ (encLE 4 L ++ encLE 4 t ++ body)
            ∧ (pipey_childCycle fmul dmul p).proc.rFile = rest)
      ∧ (t = 0 →
          (pipey_childCycle fmul dmul p).isDone = true
            ∧ (pipey_childCycle fmul dmul p).proc.wFile = p.wFile) := by
  refine ⟨?_, ?_, ?_⟩
  · rw [pipex_childCycle_other fmul dmul p L t body rest hL (by omega) ht hA hB hin]
    exact ⟨rfl, rfl, rfl⟩
  · intro h0
    rw [pipey_childCycle_other fmul dmul p L t body rest hL (by omega) ht hA hB h0 hin]
    exact ⟨rfl, rfl, rfl⟩
  · intro h0
    subst h0
    rw [pipey_childCycle_zero fmul dmul p L body rest hL (by omega) hin]
    exact ⟨rfl, rfl⟩

/-- Claim C7 as amended, at the frame of length 8 and tag 12 followed by three more
bytes on the stream. -/
theorem unknown_tag_frame_is_echoed_witness :
    ([] : List Nat).length + 8 = 8 ∧ 8 ≤ 256 ∧ 12 < 4294967296 ∧ 12 ≠ 10 ∧ 12 ≠ 11
      ∧ ({ buff := zeroMem, rFile := [8, 0, 0, 0, 12, 0, 0, 0, 1, 2, 3], wFile := [] } : Proc).rFile
          = encLE 4 8 ++ encLE 4 12 ++ [] ++ [1, 2, 3]
      ∧ (pipex_childCycle id id
            { buff := zeroMem, rFile := [8, 0, 0, 0, 12, 0, 0, 0, 1, 2, 3], wFile := [] }).isDone
          = false
      ∧ (pipex_childCycle id id
            { buff := zeroMem, rFile := [8, 0, 0, 0, 12, 0, 0, 0, 1, 2, 3], wFile := [] }).proc.wFile
          = [] ++ (encLE 4 8 ++ encLE 4 12 ++ [])
      ∧ (pipex_childCycle id id
            { buff := zeroMem, rFile := [8, 0, 0, 0, 12, 0, 0, 0, 1, 2, 3], wFile := [] }).proc.rFile
          = [1, 2, 3] :=
  ⟨by decide, by decide, by decide, by decide, by decide, by decide,
    (unknown_tag_frame_is_echoed id id
      { buff := zeroMem, rFile := [8, 0, 0, 0, 12, 0, 0, 0, 1, 2, 3], wFile := [] }
      8 12 [] [1, 2, 3] (by decide) (by decide) (by decide) (by decide) (by decide)
      (by decide)).1⟩

/-- Claim C8 fails as stated: the type B frame populated with (0x1234, 0x123456, "x"),
sent through one pass of the pipey loop, which calls `whatB::modify(3)`, comes back
with short 0x369C and int 0xA3D706 and the four marker bytes `-<(0`; the short is not
2 * 0x1234 and the int is not 32 * 0x123456. -/
theorem pipey_variantB_not_doubled :
    whatB_serialize
        (readIn zeroMem
          (pipey_childCycle id id
            { buff := zeroMem, rFile := writeOut exampleFrameB [], wFile := [] }).proc.wFile).mem
      = SerB.record 19 11 0x369C 0xA3D706 [120, 45, 60, 40, 48]
          [19, 0, 0, 0, 11, 0, 0, 0, 156, 54, 6, 215, 163, 0, 120, 45, 60, 40, 48]
      ∧ theShort (whatB_modify 3 exampleFrameB) % 65536 ≠ (2 * 0x1234) % 65536
      ∧ theInt (whatB_modify 3 exampleFrameB) % 4294967296 ≠ (32 * 0x123456) % 4294967296 := by
  decide

/-- Claim C8 as amended: on every variant B frame (declared length `L` at least 14, with
room for the marker) with short field `s` and int field `i`, the `typeB` branch of pipex
leaves short `2*s mod 2^16`, int `32*i mod 2^32`, length `L + 3` and the marker `-<(` at
offset `L`, whereas `whatB::modify(3)`, which is what pipey calls, leaves short
`3*s mod 2^16`, int `9*i mod 2^32`, length `L + 4` and the marker `-<(0`.  The frame
populated with (0x1234, 0x123456, "x") is decoded after the pipex branch as short
0x2468, int 0x2468AC0, text `x-<(`. -/
theorem variantB_transform (m : Mem) (L : Int)
    (hL : frameLength m = L) (h14 : 14 ≤ L) (hmax : L + 4 ≤ 256) :
    (theShort (pipex_caseB m) % 65536 = (2 * theShort m) % 65536
        ∧ theInt (pipex_caseB m) % 4294967296 = (32 * theInt m) % 4294967296
        ∧ frameLength (pipex_caseB m) = L + 3
        ∧ readBytes (pipex_caseB m) L 3 = [45, 60, 40])
      ∧ (theShort (whatB_modify 3 m) % 65536 = (3 * theShort m) % 65536
        ∧ theInt (whatB_modify 3 m) % 4294967296 = (9 * theInt m) % 4294967296
        ∧ frameLength (whatB_modify 3 m) = L + 4
        ∧ readBytes (whatB_modify 3 m) L 4 = [45, 60, 40, 48])
      ∧ whatB_serialize (pipex_caseB exampleFrameB)
        = SerB.record 18 11 0x2468 0x2468AC0 [120, 45, 60, 40]
            [18, 0, 0, 0, 11, 0, 0, 0, 104, 36, 192, 138, 70, 2, 120, 45, 60, 40] := by
  obtain ⟨x1, x2⟩ := pipex_caseB_fields m L hL h14
  obtain ⟨y1, y2⟩ := whatB_modify_fields m L hL h14
  obtain ⟨x3, x4, -⟩ := pipex_caseB_marker m L hL (by omega) (by omega)
  obtain ⟨y3, y4, -⟩ := whatB_modify_marker 3 m L hL (by omega) (by omega)
  exact ⟨⟨x1, x2, x3, x4⟩, ⟨y1, y2, y3, y4⟩, by decide⟩

/-- Claim C8 as amended, at the frame populated with (0x1234, 0x123456, "x"), whose
declared length is 15. -/
theorem variantB_transform_witness :
    frameLength exampleFrameB = 15 ∧ (14 : Int) ≤ 15 ∧ (15 : Int) + 4 ≤ 256
      ∧ theShort (pipex_caseB exampleFrameB) % 65536 = (2 * theShort exampleFrameB) % 65536
      ∧ theInt (pipex_caseB exampleFrameB) % 4294967296
          = (32 * theInt exampleFrameB) % 4294967296
      ∧ frameLength (pipex_caseB exampleFrameB) = 15 + 3
      ∧ readBytes (pipex_caseB exampleFrameB) 15 3 = [45, 60, 40] :=
  ⟨by decide, by decide, by decide,
    (variantB_transform exampleFrameB 15 (by decide) (by decide) (by decide)).1⟩

/-- Claim C9, evaluated where the code departs from it.  The loop of `doChildStuff` in
pipes.cpp has no way out: whatever the state, it is still running after any number of
passes.  At end of stream with the zeroed buffer one pass reads nothing, copies the
marker over the length field and writes 2833760 bytes to the reply stream. -/
theorem pipes_child_runs_on_at_end_of_stream (fmul dmul : Nat → Nat) :
    (pipes_childCycle fmul dmul { buff := zeroMem, rFile := [], wFile := [] }).isDone = false
      ∧ ((pipes_childCycle fmul dmul
            { buff := zeroMem, rFile := [], wFile := [] }).proc.wFile).length = 2833760
      ∧ (∀ (fuel : Nat) (p : Proc), pipes_doChildStuff fmul dmul fuel p = none) := by
  have h1 : (pipes_childCycle fmul dmul { buff := zeroMem, rFile := [], wFile := [] }).isDone
      = false := pipes_childCycle_isDone fmul dmul _
  have h2 := pipes_childCycle_eof fmul dmul { buff := zeroMem, rFile := [], wFile := [] } rfl
  have h3 : toSizeT (frameLength (pipes_modify fmul dmul zeroMem)) = 2833760 := by
    rw [frameLength_pipes_modify_zero]
    decide
  have h4 : (([] : List Nat).length + toSizeT (frameLength (pipes_modify fmul dmul zeroMem)))
      = 2833760 := by
    rw [h3]
    rfl
  exact ⟨h1, h2.trans h4, fun fuel p => pipes_doChildStuff_none fmul dmul fuel p⟩

theorem Record.body_length (r : Record) : r.body.length + 8 = r.size := by
  cases r with
  | varA a b c => simp only [Record.body, Record.size, List.length_append, length_encLE]; omega
  | varB s i c => simp only [Record.body, Record.size, List.length_append, length_encLE]; omega

theorem Record.tag_lt (r : Record) : r.tag < 4294967296 := by
  cases r <;> simp [Record.tag, typeA, typeB]

/-- The frame `populate` leaves in the buffer, as a byte string. -/
theorem Record.populate_image (r : Record) (m : Mem) (h : r.size ≤ 256) :
    (r.populate m).mem = write m 0 (encLE 4 r.size ++ encLE 4 r.tag ++ r.body) := by
  cases r with
  | varA a b c =>
    simp only [Record.size] at h
    simp only [Record.populate, Record.size, Record.tag, Record.body, typeA]
    rw [whatA_populate_image a b c m (by omega)]
    simp only [List.append_assoc]
  | varB s i c =>
    simp only [Record.size] at h
    simp only [Record.populate, Record.size, Record.tag, Record.body, typeB]
    rw [whatB_populate_image s i c m (by omega)]
    simp only [List.append_assoc]

/-- The bytes sent for a record that fits the buffer: length, tag, fields and text. -/
theorem sentFrame_eq (r : Record) (m : Mem) (h : r.size ≤ 256) :
    sentFrame r m = encLE 4 r.size ++ encLE 4 r.tag ++ r.body := by
  unfold sentFrame writeOut fwrite
  rw [Record.populate_image r m h, frameLength_frame _ _ _ _ (by omega),
    toSizeT_of_nat _ (by omega), readBytes_frame _ _ _ _ r.body_length, List.nil_append]

theorem sentFrame_length (r : Record) (m : Mem) (h : r.size ≤ 256) :
    (sentFrame r m).length = r.size := by
  rw [sentFrame_eq r m h]
  have := r.body_length
  simp only [List.length_append, length_encLE]
  omega

/-- Two records whose struct and text together fit the buffer, sent one after the
other: each `readIn` consumes exactly one frame. -/
theorem framing_of_fitting_records (r1 r2 : Record) (mp1 mp2 mr1 mr2 : Mem)
    (h1 : r1.size ≤ 256) (h2 : r2.size ≤ 256) :
    (frameLength (r1.populate mp1).mem = (r1.size : Int)
        ∧ (sentFrame r1 mp1).length = r1.size)
      ∧ ((readIn mr1 (sentFrame r1 mp1 ++ sentFrame r2 mp2)).file = sentFrame r2 mp2
        ∧ readBytes (readIn mr1 (sentFrame r1 mp1 ++ sentFrame r2 mp2)).mem 0
            (sentFrame r1 mp1).length = sentFrame r1 mp1
        ∧ (readIn mr1 (sentFrame r1 mp1 ++ sentFrame r2 mp2)).type = r1.tag)
      ∧ ((readIn mr2 (sentFrame r2 mp2)).file = []
        ∧ readBytes (readIn mr2 (sentFrame r2 mp2)).mem 0
            (sentFrame r2 mp2).length = sentFrame r2 mp2
        ∧ (readIn mr2 (sentFrame r2 mp2)).type = r2.tag) := by
  have l1 := sentFrame_length r1 mp1 h1
  have l2 := sentFrame_length r2 mp2 h2
  have e1 := sentFrame_eq r1 mp1 h1
  have e2 := sentFrame_eq r2 mp2 h2
  have g1 := readIn_frame mr1 r1.size r1.tag r1.body (sentFrame r2 mp2) r1.body_length
    (by omega) r1.tag_lt
  have g2 := readIn_frame mr2 r2.size r2.tag r2.body [] r2.body_length (by omega) r2.tag_lt
  rw [List.append_nil] at g2
  rw [← e1] at g1
  rw [← e2] at g2
  rw [g1, g2]
  refine ⟨⟨?_, l1⟩, ⟨rfl, ?_, rfl⟩, ⟨rfl, ?_, rfl⟩⟩
  · rw [Record.populate_image r1 mp1 h1]
    exact frameLength_frame _ _ _ _ (by omega)
  · exact readBytes_write_same mr1 0 (sentFrame r1 mp1)
  · exact readBytes_write_same mr2 0 (sentFrame r2 mp2)

theorem toInt32_le_self (n : Nat) : toInt32 n ≤ (n : Int) := by
  unfold toInt32
  split <;> omega

/-- Only the first `cSize` bytes of the text reach the frame; `populate` does the same
with those bytes alone. -/
theorem whatA_populate_take (a b : Nat) (c : List Nat) (m : Mem) (k : Nat)
    (hk : k ≤ 250) (h : toInt32 c.length = (k : Int)) :
    (whatA_populate a b c m).mem = (whatA_populate a b (c.take k) m).mem := by
  have hle := toInt32_le_self c.length
  have h2 : toInt32 (c.take k).length = (k : Int) := by
    rw [List.length_take]
    have : min k c.length = k := by omega
    rw [this]
    exact toInt32_of_lt _ (by omega)
  unfold whatA_populate
  simp only [h, h2]
  rw [if_neg (by omega), if_neg (by omega)]
  simp [List.take_take]

theorem whatB_populate_take (a b : Int) (c : List Nat) (m : Mem) (k : Nat)
    (hk : k ≤ 250) (h : toInt32 c.length = (k : Int)) :
    (whatB_populate a b c m).mem = (whatB_populate a b (c.take k) m).mem := by
  have hle := toInt32_le_self c.length
  have h2 : toInt32 (c.take k).length = (k : Int) := by
    rw [List.length_take]
    have : min k c.length = k := by omega
    rw [this]
    exact toInt32_of_lt _ (by omega)
  unfold whatB_populate
  simp only [h, h2]
  rw [if_neg (by omega), if_neg (by omega)]
  simp [List.take_take]

theorem whatA_populate_accepted (a b : Nat) (c : List Nat) (m : Mem)
    (h : (whatA_populate a b c m).bad = none) :
    0 ≤ toInt32 c.length ∧ toInt32 c.length ≤ 250 := by
  unfold whatA_populate at h
  by_cases hc : toInt32 c.length < 0 ∨ toInt32 c.length > 250
  · simp only [hc, if_true] at h
    exact absurd h (by simp)
  · omega

theorem whatB_populate_accepted (a b : Int) (c : List Nat) (m : Mem)
    (h : (whatB_populate a b c m).bad = none) :
    0 ≤ toInt32 c.length ∧ toInt32 c.length ≤ 250 := by
  unfold whatB_populate at h
  by_cases hc : toInt32 c.length < 0 ∨ toInt32 c.length > 250
  · simp only [hc, if_true] at h
    exact absurd h (by simp)
  · omega

/-- A frame that `populate` produced with a declared length of at most 256 is the frame
of a record whose struct and text together fit the buffer. -/
theorem Record.populate_fitting (r : Record) (m : Mem)
    (hb : (r.populate m).bad = none) (hl : frameLength (r.populate m).mem ≤ 256) :
    ∃ r0 : Record, r0.size ≤ 256 ∧ r0.tag = r.tag ∧ (r0.populate m).mem = (r.populate m).mem := by
  cases r with
  | varA a b c =>
    simp only [Record.populate] at hb hl
    obtain ⟨h0, h1⟩ := whatA_populate_accepted a b c m hb
    obtain ⟨k, hk⟩ := Int.eq_ofNat_of_zero_le h0
    have hk250 : k ≤ 250 := by omega
    have hle := toInt32_le_self c.length
    have hlen : (c.take k).length = k := by
      rw [List.length_take]; omega
    have e := whatA_populate_take a b c m k hk250 hk
    rw [e, whatA_populate_length a b _ m (by omega), hlen] at hl
    refine ⟨Record.varA a b (c.take k), ?_, rfl, ?_⟩
    · simp only [Record.size, hlen]; omega
    · simp only [Record.populate]; exact e.symm
  | varB s i c =>
    simp only [Record.populate] at hb hl
    obtain ⟨h0, h1⟩ := whatB_populate_accepted s i c m hb
    obtain ⟨k, hk⟩ := Int.eq_ofNat_of_zero_le h0
    have hk250 : k ≤ 250 := by omega
    have hle := toInt32_le_self c.length
    have hlen : (c.take k).length = k := by
      rw [List.length_take]; omega
    have e := whatB_populate_take s i c m k hk250 hk
    rw [e, whatB_populate_length s i _ m (by omega), hlen] at hl
    refine ⟨Record.varB s i (c.take k), ?_, rfl, ?_⟩
    · simp only [Record.size, hlen]; omega
    · simp only [Record.populate]; exact e.symm

theorem sentFrame_congr (r r0 : Record) (m : Mem)
    (h : (r0.populate m).mem = (r.populate m).mem) : sentFrame r0 m = sentFrame r m := by
  unfold sentFrame
  rw [h]

/-- Claim C11: for every two frames that `populate` produced (either variant, the size
check passed) with declared lengths of at most 256, sent one after the other, `readIn`
into any buffer, the zeroed one included, consumes exactly the bytes of the first
frame: their number is its declared length, what is left on the stream is the second
frame, the first bytes of the buffer are the first frame, and the type returned is the
tag of the first record; a second `readIn` then consumes the second frame in the same
way and leaves the stream empty. -/
theorem framing_preserves_order (r1 r2 : Record) (mp1 mp2 mr1 mr2 : Mem)
    (hb1 : (r1.populate mp1).bad = none) (hl1 : frameLength (r1.populate mp1).mem ≤ 256)
    (hb2 : (r2.populate mp2).bad = none) (hl2 : frameLength (r2.populate mp2).mem ≤ 256) :
    ((sentFrame r1 mp1).length : Int) = frameLength (r1.populate mp1).mem
      ∧ ((readIn mr1 (sentFrame r1 mp1 ++ sentFrame r2 mp2)).file = sentFrame r2 mp2
        ∧ readBytes (readIn mr1 (sentFrame r1 mp1 ++ sentFrame r2 mp2)).mem 0
            (sentFrame r1 mp1).length = sentFrame r1 mp1
        ∧ (readIn mr1 (sentFrame r1 mp1 ++ sentFrame r2 mp2)).type = r1.tag)
      ∧ ((readIn mr2 (sentFrame r2 mp2)).file = []
        ∧ readBytes (readIn mr2 (sentFrame r2 mp2)).mem 0
            (sentFrame r2 mp2).length = sentFrame r2 mp2
        ∧ (readIn mr2 (sentFrame r2 mp2)).type = r2.tag) := by
  obtain ⟨s1, hs1, ht1, hm1⟩ := Record.populate_fitting r1 mp1 hb1 hl1
  obtain ⟨s2, hs2, ht2, hm2⟩ := Record.populate_fitting r2 mp2 hb2 hl2
  have c1 := sentFrame_congr r1 s1 mp1 hm1
  have c2 := sentFrame_congr r2 s2 mp2 hm2
  obtain ⟨⟨a1, a2⟩, a3, a4⟩ := framing_of_fitting_records s1 s2 mp1 mp2 mr1 mr2 hs1 hs2
  rw [c1, c2, ht1] at a3
  rw [c2, ht2] at a4
  rw [c1] at a2
  rw [hm1] at a1
  exact ⟨by rw [a1, a2], a3, a4⟩

/-- Claim C11 at the two frames the producer sends for the line "x", read into the
zeroed buffer. -/
theorem framing_preserves_order_witness :
    ((Record.varA demoFlt demoDbl [120]).populate zeroMem).bad = none
      ∧ frameLength ((Record.varA demoFlt demoDbl [120]).populate zeroMem).mem ≤ 256
      ∧ ((Record.varB 4660 1193046 [120]).populate zeroMem).bad = none
      ∧ frameLength ((Record.varB 4660 1193046 [120]).populate zeroMem).mem ≤ 256
      ∧ (readIn zeroMem (sentFrame (Record.varA demoFlt demoDbl [120]) zeroMem
            ++ sentFrame (Record.varB 4660 1193046 [120]) zeroMem)).file
          = sentFrame (Record.varB 4660 1193046 [120]) zeroMem
      ∧ readBytes (readIn zeroMem (sentFrame (Record.varA demoFlt demoDbl [120]) zeroMem
            ++ sentFrame (Record.varB 4660 1193046 [120]) zeroMem)).mem 0
            (sentFrame (Record.varA demoFlt demoDbl [120]) zeroMem).length
          = sentFrame (Record.varA demoFlt demoDbl [120]) zeroMem
      ∧ (readIn zeroMem (sentFrame (Record.varA demoFlt demoDbl [120]) zeroMem
            ++ sentFrame (Record.varB 4660 1193046 [120]) zeroMem)).type
          = (Record.varA demoFlt demoDbl [120]).tag :=
  ⟨by decide, by decide, by decide, by decide,
    (framing_preserves_order (Record.varA demoFlt demoDbl [120])
      (Record.varB 4660 1193046 [120]) zeroMem zeroMem zeroMem zeroMem
      (by decide) (by decide) (by decide) (by decide)).2.1⟩

theorem bufferZero_memsetZero (m : Mem) : BufferZero (memsetZero m) := by
  intro i h0 h1
  unfold memsetZero
  rw [if_pos ⟨h0, h1⟩]

theorem bufferZero_zeroMem : BufferZero zeroMem := fun _ _ _ => rfl

theorem pipey_childCycle_reset (fmul dmul : Nat → Nat) (p : Proc) :
    (pipey_childCycle fmul dmul p).isDone = true
      ∨ BufferZero (pipey_childCycle fmul dmul p).proc.buff := by
  unfold pipey_childCycle
  simp only []
  split_ifs
  · exact Or.inr (bufferZero_memsetZero _)
  · exact Or.inr (bufferZero_memsetZero _)
  · exact Or.inl rfl
  · exact Or.inr (bufferZero_memsetZero _)

theorem pipex_childCycle_reset (fmul dmul : Nat → Nat) (p : Proc) :
    (pipex_childCycle fmul dmul p).isDone = true
      ∨ BufferZero (pipex_childCycle fmul dmul p).proc.buff := by
  unfold pipex_childCycle
  simp only []
  split_ifs
  · exact Or.inl rfl
  · exact Or.inl rfl
  · exact Or.inr (bufferZero_memsetZero _)
  · exact Or.inr (bufferZero_memsetZero _)
  · exact Or.inr (bufferZero_memsetZero _)

/-- After the first send of pipey.cpp the buffer is zeroed. -/
theorem pipey_sendA_reset (a b : Nat) (line : List Nat) (p : Proc) :
    (pipey_sendA a b line p).isNext = false
      ∨ BufferZero (pipey_sendA a b line p).proc.buff := by
  unfold pipey_sendA
  simp only []
  split_ifs
  · exact Or.inl rfl
  · exact Or.inr (bufferZero_memsetZero _)

/-- After the second send of pipey.cpp the buffer is zeroed. -/
theorem pipey_sendB_reset (line : List Nat) (p : Proc) :
    (pipey_sendB line p).isNext = false
      ∨ BufferZero (pipey_sendB line p).proc.buff := by
  unfold pipey_sendB
  simp only []
  split_ifs
  · exact Or.inl rfl
  · exact Or.inr (bufferZero_memsetZero _)

theorem pipey_parentSend_reset (a b : Nat) (line : List Nat) (p : Proc) :
    (pipey_parentSend a b line p).isNext = false
      ∨ BufferZero (pipey_parentSend a b line p).proc.buff := by
  unfold pipey_parentSend
  cases pipey_sendA a b line p with
  | next q => exact pipey_sendB_reset line q
  | done q => exact Or.inl rfl
  | aborted q => exact Or.inl rfl

/-- After the first send of pipex.cpp the buffer is zeroed. -/
theorem pipex_sendA_reset (a b : Nat) (line : List Nat) (p : Proc) :
    (pipex_sendA a b line p).isNext = false
      ∨ BufferZero (pipex_sendA a b line p).proc.buff := by
  unfold pipex_sendA
  simp only []
  split_ifs
  · exact Or.inl rfl
  · exact Or.inr (bufferZero_memsetZero _)

/-- After the second send of pipex.cpp the buffer is zeroed. -/
theorem pipex_sendB_reset (line : List Nat) (p : Proc) :
    (pipex_sendB line p).isNext = false
      ∨ BufferZero (pipex_sendB line p).proc.buff := by
  unfold pipex_sendB
  simp only []
  split_ifs
  · exact Or.inl rfl
  · exact Or.inr (bufferZero_memsetZero _)

theorem pipex_parentSend_reset (a b : Nat) (line : List Nat) (p : Proc) :
    (pipex_parentSend a b line p).isNext = false
      ∨ BufferZero (pipex_parentSend a b line p).proc.buff := by
  unfold pipex_parentSend
  cases pipex_sendA a b line p with
  | next q => exact pipex_sendB_reset line q
  | done q => exact Or.inl rfl
  | aborted q => exact Or.inl rfl

/-- In pipey.cpp the type B frame is encoded by the second send on the state the first
send left, whose buffer is zeroed. -/
theorem pipey_sendA_then_sendB (a b : Nat) (line : List Nat) (p : Proc) :
    (pipey_sendA a b line p).isNext = false
      ∨ (BufferZero (pipey_sendA a b line p).proc.buff
        ∧ pipey_parentSend a b line p = pipey_sendB line (pipey_sendA a b line p).proc) := by
  have hr := pipey_sendA_reset a b line p
  unfold pipey_parentSend
  cases h : pipey_sendA a b line p with
  | next q =>
    rw [h] at hr
    rcases hr with hr | hr
    · cases hr
    · exact Or.inr ⟨hr, rfl⟩
  | done q => exact Or.inl rfl
  | aborted q => exact Or.inl rfl

/-- In pipey.cpp the replies are read on the state the two sends left, whose buffer is
zeroed. -/
theorem pipey_send_then_receive (a b : Nat) (line : List Nat) (p : Proc) :
    (pipey_parentSend a b line p).isNext = false
      ∨ (BufferZero (pipey_parentSend a b line p).proc.buff
        ∧ (line.length = 0
          ∨ pipey_parentCycle a b line p
              = pipey_parentReceive (pipey_parentSend a b line p).proc)) := by
  have hr := pipey_parentSend_reset a b line p
  by_cases hl : line.length = 0
  · rcases hr with hr | hr
    · exact Or.inl hr
    · exact Or.inr ⟨hr, Or.inl hl⟩
  · unfold pipey_parentCycle
    rw [if_neg hl]
    cases h : pipey_parentSend a b line p with
    | next q =>
      rw [h] at hr
      rcases hr with hr | hr
      · cases hr
      · exact Or.inr ⟨hr, Or.inr rfl⟩
    | done q => exact Or.inl rfl
    | aborted q => exact Or.inl rfl

/-- In pipex.cpp the type B frame is encoded by the second send on the state the first
send left, whose buffer is zeroed. -/
theorem pipex_sendA_then_sendB (a b : Nat) (line : List Nat) (p : Proc) :
    (pipex_sendA a b line p).isNext = false
      ∨ (BufferZero (pipex_sendA a b line p).proc.buff
        ∧ pipex_parentSend a b line p = pipex_sendB line (pipex_sendA a b line p).proc) := by
  have hr := pipex_sendA_reset a b line p
  unfold pipex_parentSend
  cases h : pipex_sendA a b line p with
  | next q =>
    rw [h] at hr
    rcases hr with hr | hr
    · cases hr
    · exact Or.inr ⟨hr, rfl⟩
  | done q => exact Or.inl rfl
  | aborted q => exact Or.inl rfl

/-- In pipex.cpp the replies are read on the state the two sends left, whose buffer is
zeroed. -/
theorem pipex_send_then_receive (a b : Nat) (line : List Nat) (p : Proc) :
    (pipex_parentSend a b line p).isNext = false
      ∨ (BufferZero (pipex_parentSend a b line p).proc.buff
        ∧ (line.length = 0
          ∨ pipex_parentCycle a b line p
              = pipex_parentReceive (pipex_parentSend a b line p).proc)) := by
  have hr := pipex_parentSend_reset a b line p
  by_cases hl : line.length = 0
  · rcases hr with hr | hr
    · exact Or.inl hr
    · exact Or.inr ⟨hr, Or.inl hl⟩
  · unfold pipex_parentCycle
    rw [if_neg hl]
    cases h : pipex_parentSend a b line p with
    | next q =>
      rw [h] at hr
      rcases hr with hr | hr
      · cases hr
      · exact Or.inr ⟨hr, Or.inr rfl⟩
    | done q => exact Or.inl rfl
    | aborted q => exact Or.inl rfl

/-- Claim C12 fails as stated: after one pass of the producer loop over the line "x",
with the two replies of the transformer on the reply stream, the producer goes round
again with a buffer that is not zero: it holds the 19 bytes of the type B reply,
followed by the last 5 bytes of the longer type A reply read before it.  This is so in
pipey.cpp and in pipex.cpp. -/
theorem producer_buffer_not_reset :
    ((pipey_parentCycle demoFlt demoDbl [120]
          { buff := zeroMem, rFile := demoRepliesPipey, wFile := [] }).isNext = true
        ∧ readBytes (pipey_parentCycle demoFlt demoDbl [120]
            { buff := zeroMem, rFile := demoRepliesPipey, wFile := [] }).proc.buff 0 24
          = [19, 0, 0, 0, 11, 0, 0, 0, 156, 54, 6, 215, 163, 0, 120, 45, 60, 40, 48,
             78, 120, 41, 62, 45]
        ∧ ¬ BufferZero (pipey_parentCycle demoFlt demoDbl [120]
            { buff := zeroMem, rFile := demoRepliesPipey, wFile := [] }).proc.buff)
      ∧ ((pipex_parentCycle demoFlt demoDbl [120]
          { buff := zeroMem, rFile := demoRepliesPipex, wFile := [] }).isNext = true
        ∧ readBytes (pipex_parentCycle demoFlt demoDbl [120]
            { buff := zeroMem, rFile := demoRepliesPipex, wFile := [] }).proc.buff 0 24
          = [18, 0, 0, 0, 11, 0, 0, 0, 104, 36, 192, 138, 70, 2, 120, 45, 60, 40,
             59, 78, 120, 41, 62, 45]
        ∧ ¬ BufferZero (pipex_parentCycle demoFlt demoDbl [120]
            { buff := zeroMem, rFile := demoRepliesPipex, wFile := [] }).proc.buff) := by
  refine ⟨⟨by decide, by decide, ?_⟩, ⟨by decide, by decide, ?_⟩⟩
  · intro h
    have h0 := h 0 (by decide) (by decide)
    revert h0
    decide
  · intro h
    have h0 := h 0 (by decide) (by decide)
    revert h0
    decide

/-- Claim C12 as amended: the buffer starts out zeroed; every pass of the transformer
loop of pipey.cpp and of pipex.cpp that goes round again ends with all 256 bytes of the
buffer zero, so each transformer cycle starts with a zeroed buffer; in the producer
loops of pipey.cpp and pipex.cpp the first send, unless it ends the process, leaves the
buffer zeroed and the type B frame is encoded by the second send on that state; the
two sends together, unless they end the process, leave the buffer zeroed and the
replies are read on that state, so the first reply is read into a zeroed buffer.
Nothing is said of the buffer after the replies have been read. -/
theorem buffer_reset_points (fmul dmul : Nat → Nat) (a b : Nat) (line : List Nat) (p : Proc) :
    BufferZero zeroMem
      ∧ ((pipey_childCycle fmul dmul p).isDone = true
          ∨ BufferZero (pipey_childCycle fmul dmul p).proc.buff)
      ∧ ((pipex_childCycle fmul dmul p).isDone = true
          ∨ BufferZero (pipex_childCycle fmul dmul p).proc.buff)
      ∧ (((pipey_sendA a b line p).isNext = false
            ∨ (BufferZero (pipey_sendA a b line p).proc.buff
              ∧ pipey_parentSend a b line p
                  = pipey_sendB line (pipey_sendA a b line p).proc))
          ∧ ((pipey_sendB line p).isNext = false
            ∨ BufferZero (pipey_sendB line p).proc.buff)
          ∧ ((pipey_parentSend a b line p).isNext = false
            ∨ (BufferZero (pipey_parentSend a b line p).proc.buff
              ∧ (line.length = 0
                ∨ pipey_parentCycle a b line p
                    = pipey_parentReceive (pipey_parentSend a b line p).proc))))
      ∧ (((pipex_sendA a b line p).isNext = false
            ∨ (BufferZero (pipex_sendA a b line p).proc.buff
              ∧ pipex_parentSend a b line p
                  = pipex_sendB line (pipex_sendA a b line p).proc))
          ∧ ((pipex_sendB line p).isNext = false
            ∨ BufferZero (pipex_sendB line p).proc.buff)
          ∧ ((pipex_parentSend a b line p).isNext = false
            ∨ (BufferZero (pipex_parentSend a b line p).proc.buff
              ∧ (line.length = 0
                ∨ pipex_parentCycle a b line p
                    = pipex_parentReceive (pipex_parentSend a b line p).proc)))) :=
  ⟨bufferZero_zeroMem, pipey_childCycle_reset fmul dmul p, pipex_childCycle_reset fmul dmul p,
    ⟨pipey_sendA_then_sendB a b line p, pipey_sendB_reset line p,
      pipey_send_then_receive a b line p⟩,
    ⟨pipex_sendA_then_sendB a b line p, pipex_sendB_reset line p,
      pipex_send_then_receive a b line p⟩⟩

/-- Claim C12 as amended, at the producer cycle for the line "x" from the zeroed buffer:
both sends go on, the buffer is zero after the first send, where the type B frame is
encoded, and zero after the second, where the first reply is read. -/
theorem buffer_reset_points_witness :
    (pipey_sendA demoFlt demoDbl [120]
        { buff := zeroMem, rFile := demoRepliesPipey, wFile := [] }).isNext = true
      ∧ BufferZero (pipey_sendA demoFlt demoDbl [120]
          { buff := zeroMem, rFile := demoRepliesPipey, wFile := [] }).proc.buff
      ∧ (pipey_parentSend demoFlt demoDbl [120]
          { buff := zeroMem, rFile := demoRepliesPipey, wFile := [] }).isNext = true
      ∧ BufferZero (pipey_parentSend demoFlt demoDbl [120]
          { buff := zeroMem, rFile := demoRepliesPipey, wFile := [] }).proc.buff :=
  ⟨by decide,
    ((buffer_reset_points id id demoFlt demoDbl [120]
      { buff := zeroMem, rFile := demoRepliesPipey, wFile := [] }).2.2.2.1.1.resolve_left
        (by decide)).1,
    by decide,
    ((buffer_reset_points id id demoFlt demoDbl [120]
      { buff := zeroMem, rFile := demoRepliesPipey, wFile := [] }).2.2.2.1.2.2.resolve_left
        (by decide)).1⟩

end Pipes
